import Mathlib

/-!
# Verification of the pico2-swd-riscv debug-controller core

Shallow embedding of the SWD wire engine (`swd_protocol.c`), the DAP layer
(`dap.c`) and the RP2350 RISC-V Debug-Module driver (`rp2350.c`) of the
pico2-swd-riscv repository, together with proofs settling the frozen claims
about the code.

Modelling conventions:
* machine integers are `Nat` with explicit masking where the C code masks;
* the physical SWD target is an oracle `Nat → WireResp`: entry `n` is the
  target's response (ACK bits, read data, read parity bit) to the `n`-th
  SWD transaction of the session; the state records the index `ix` of the
  next transaction;
* hardware-only side effects (PIO FIFO writes, `sleep_ms`/`sleep_us`
  delays, log output, the formatted `swd_set_error` detail buffer) have no
  observable effect on the modelled state and are elided; the line-reset
  emitted on a malformed ACK and the MEM-AP accesses issued by
  `dap_read_mem32`/`dap_write_mem32` are recorded as ghost data because
  claims mention them.
-/

/-- Error kinds of `swd_error_t` (types.h is not part of the provided
sources; the constructors and their order follow the closed set of spec
§7, which matches the prefix shown in the repository's README). -/
inductive SwdError
  | ok
  | timeout
  | fault
  | protocol
  | parity
  | wait
  | notConnected
  | notInitialized
  | notHalted
  | alreadyHalted
  | invalidParam
  | invalidState
  | alignment
  | resourceBusy
  | abstractCmd
  | verify
  deriving DecidableEq, Repr

/-- Numeric value of an error kind.  Modelled from the spec: the numeric
order of the `swd_error_t` enumerators (needed only for the negated return
value of `rp2350_trace`) follows the closed set listed in spec §7. -/
def SwdError.code : SwdError → Nat
  | .ok => 0
  | .timeout => 1
  | .fault => 2
  | .protocol => 3
  | .parity => 4
  | .wait => 5
  | .notConnected => 6
  | .notInitialized => 7
  | .notHalted => 8
  | .alreadyHalted => 9
  | .invalidParam => 10
  | .invalidState => 11
  | .alignment => 12
  | .resourceBusy => 13
  | .abstractCmd => 14
  | .verify => 15

/-- Response of the physical target to one SWD transaction: the 3 ACK bits,
and — for read transactions — the 32-bit data word and its parity bit. -/
structure WireResp where
  ack : Nat
  value : Nat
  par : Nat
  deriving Repr

/-- The wire oracle: response of the target to the `n`-th transaction. -/
def WireOracle := Nat → WireResp

/-- SWD ACK values (swd.h).  `001` LSB-first = 1 = OK, `010` = 2 = WAIT,
`100` = 4 = FAULT. -/
def SWD_ACK_OK : Nat := 1

def SWD_ACK_WAIT : Nat := 2

def SWD_ACK_FAULT : Nat := 4

/-- Modelled from the spec: the `SWD_ACK_ERROR` constant lives in the
repository's `swd.h`, which is not among the provided sources.  It is the
all-ones pattern `0b111` read back when no target drives the line (the
remaining named ACK constant besides OK/WAIT/FAULT). -/
def SWD_ACK_ERROR : Nat := 7

/-- DP register addresses (dap.h). -/
def DP_IDCODE : Nat := 0x0

def DP_CTRL_STAT : Nat := 0x4

def DP_SELECT : Nat := 0x8

def DP_RDBUFF : Nat := 0xC

/-- AP register addresses (dap.h). -/
def AP_CSW : Nat := 0x00

def AP_TAR : Nat := 0x04

def AP_DRW : Nat := 0x0C

def AP_RISCV : Nat := 0xA

/-- `calculate_parity`: population count of the 32-bit value, mod 2
(swd_protocol.c). -/
def calculate_parity (value : Nat) : Nat :=
  (List.range 32).foldl (fun a i => a + (value >>> i) % 2) 0 % 2

/-- `make_swd_request` (swd_protocol.c): request byte
`{Start=1, APnDP, RnW, A2, A3, Parity, Stop=0, Park=1}`, LSB first. -/
def make_swd_request (APnDP RnW : Bool) (addr : Nat) : Nat :=
  let a2 := (addr >>> 2) % 2
  let a3 := (addr >>> 3) % 2
  let np := fun (b : Bool) => if b then 1 else 0
  let par := (np APnDP + np RnW + a2 + a3) % 2
  1 ||| (np APnDP <<< 1) ||| (np RnW <<< 2) ||| (a2 <<< 3) ||| (a3 <<< 4) |||
    (par <<< 5) ||| (1 <<< 7)

/-- `swd_ack_to_error` (swd.c, quoted in the README §11.C). -/
def swd_ack_to_error (ack : Nat) : SwdError :=
  if ack = 0x1 then .ok
  else if ack = 0x2 then .wait
  else if ack = 0x4 then .fault
  else .protocol

/-- A ghost record of one MEM-AP access issued by
`dap_read_mem32`/`dap_write_mem32` (used to state claims about the DM
transactions a driver function performs). -/
inductive DmAccess
  | rd (addr : Nat)
  | wr (addr value : Nat)
  deriving DecidableEq, Repr

/-- The session state visible below the DM driver: the connection flag and
the PIO flag of `swd_target_t`, the `dap_state_t` fields, and ghost
instrumentation (`lastSelect`: last value successfully written to the DP
`SELECT` register; `ix`: index of the next wire transaction; `dmtrace`:
MEM-AP accesses issued so far). -/
structure LowState where
  connected : Bool
  pio_init : Bool
  current_apsel : Nat
  current_bank : Nat
  ctrlsel : Bool
  select_cache : Nat
  powered : Bool
  retry_count : Nat
  last_ack : Nat
  lastSelect : Option Nat
  ix : Nat
  dmtrace : List DmAccess
  deriving Repr

/-- Result of one `swd_io_raw` call: the error, the data word read (for
reads), and a ghost flag recording whether `swd_line_reset` was driven. -/
structure IoOut where
  err : SwdError
  data : Nat
  lineReset : Bool
  deriving DecidableEq, Repr

/-- `swd_io_raw` (swd_protocol.c 477-529): one SWD transaction.  The
request byte only reaches the wire, so it does not appear here; the
target's answer is the oracle entry at the current transaction index.  On
ACK=OK a write succeeds outright and a read checks the data parity; WAIT
and FAULT map through `swd_ack_to_error`; ACK=`SWD_ACK_ERROR` drains the
data phase and re-drives a line reset; any other ACK value returns the
protocol error without a line reset. -/
def swd_io_raw (ora : WireOracle) (s : LowState) (data : Nat) (write : Bool) :
    IoOut × LowState :=
  if s.pio_init = false then
    ({ err := .invalidState, data := data, lineReset := false }, s)
  else
    let r := ora s.ix
    let ack := r.ack % 8
    let s1 : LowState := { s with ix := s.ix + 1, last_ack := ack }
    if ack = SWD_ACK_OK then
      if write then
        ({ err := .ok, data := data, lineReset := false }, s1)
      else
        let value := r.value % 2 ^ 32
        let par := r.par % 2
        if (calculate_parity value ^^^ par) ≠ 0 then
          ({ err := .parity, data := data, lineReset := false }, s1)
        else
          ({ err := .ok, data := value, lineReset := false }, s1)
    else if ack = SWD_ACK_WAIT ∨ ack = SWD_ACK_FAULT then
      ({ err := swd_ack_to_error ack, data := data, lineReset := false }, s1)
    else if ack = SWD_ACK_ERROR then
      ({ err := .protocol, data := data, lineReset := true }, s1)
    else
      ({ err := .protocol, data := data, lineReset := false }, s1)

/-- The shared WAIT-retry loop of the four raw DP/AP primitives
(swd_protocol.c 535-585): `err` starts as `SWD_ERROR_WAIT`, the body runs
at most `retry_count` times, and any non-WAIT result breaks the loop. -/
def swd_retry (ora : WireOracle) (data : Nat) (write : Bool) :
    Nat → LowState → SwdError × Nat × LowState
  | 0, s => (.wait, data, s)
  | n + 1, s =>
    let (o, s1) := swd_io_raw ora s data write
    if o.err = .wait then swd_retry ora data write n s1
    else (o.err, o.data, s1)

/-- `swd_read_dp_raw` (swd_protocol.c 535-546). -/
def swd_read_dp_raw (ora : WireOracle) (s : LowState) (reg : Nat) :
    SwdError × Nat × LowState :=
  let _request := make_swd_request false true reg
  swd_retry ora 0 false s.retry_count s

/-- `swd_write_dp_raw` (swd_protocol.c 548-559).  Ghost: a successful write
to `DP_SELECT` records the value as the last value written to `SELECT`. -/
def swd_write_dp_raw (ora : WireOracle) (s : LowState) (reg value : Nat) :
    SwdError × LowState :=
  let _request := make_swd_request false false reg
  let (e, _, s1) := swd_retry ora value true s.retry_count s
  if reg = DP_SELECT ∧ e = .ok then
    (e, { s1 with lastSelect := some value })
  else
    (e, s1)

/-- `swd_read_ap_raw` (swd_protocol.c 561-572). -/
def swd_read_ap_raw (ora : WireOracle) (s : LowState) (reg : Nat) :
    SwdError × Nat × LowState :=
  let _request := make_swd_request true true reg
  swd_retry ora 0 false s.retry_count s

/-- `swd_write_ap_raw` (swd_protocol.c 574-585). -/
def swd_write_ap_raw (ora : WireOracle) (s : LowState) (reg value : Nat) :
    SwdError × LowState :=
  let _request := make_swd_request true false reg
  let (e, _, s1) := swd_retry ora value true s.retry_count s
  (e, s1)

/-- `swd_set_frequency` divider computation (swd_protocol.c 651-669):
`divider = ((ceil(sys_khz/freq_khz)) + 3) / 4` in C integer arithmetic,
clamped to `[1, 65535]`.  The system clock `clk_sys_khz` is hardware input
and is a parameter here. -/
def swd_frequency_divider (clk_sys_khz freq_khz : Nat) : Nat :=
  let divider := ((clk_sys_khz + freq_khz - 1) / freq_khz + 3) / 4
  let divider := if divider < 1 then 1 else divider
  if divider > 65535 then 65535 else divider

/-- `swd_result_t`: value plus status. -/
structure SwdRes where
  error : SwdError
  value : Nat
  deriving DecidableEq, Repr

/-- `make_dp_select_rp2350` (dap.c 19-24): the target's non-standard
`SELECT` encoding `[15:12] = APSEL, [11:8] = 0xD, [7:4] = bank,
[0] = ctrlsel`. -/
def make_dp_select_rp2350 (apsel bank : Nat) (ctrlsel : Bool) : Nat :=
  ((apsel &&& 0xF) <<< 12) ||| (0xD <<< 8) ||| ((bank &&& 0xF) <<< 4) |||
    (if ctrlsel then 1 else 0)

/-- `select_ap_bank` (dap.c 29-56): skip the `SELECT` write when the cached
`(apsel, bank, ctrlsel)` triple matches, otherwise write `SELECT` and, on
success, update the cache. -/
def select_ap_bank (ora : WireOracle) (s : LowState) (apsel bank : Nat) :
    SwdError × LowState :=
  if s.current_apsel = apsel ∧ s.current_bank = bank ∧ s.ctrlsel = true then
    (.ok, s)
  else
    let select_val := make_dp_select_rp2350 apsel bank true
    let (err, s1) := swd_write_dp_raw ora s DP_SELECT select_val
    if err ≠ .ok then (err, s1)
    else
      (.ok, { s1 with current_apsel := apsel, current_bank := bank,
                      ctrlsel := true, select_cache := select_val })

/-- `dap_read_dp` (dap.c 140-155). -/
def dap_read_dp (ora : WireOracle) (s : LowState) (reg : Nat) :
    SwdRes × LowState :=
  let (e, v, s1) := swd_read_dp_raw ora s reg
  ({ error := e, value := v }, s1)

/-- `dap_write_dp` (dap.c 157-170): a raw DP write; for `reg = DP_SELECT`
this bypasses the bank-selection cache. -/
def dap_write_dp (ora : WireOracle) (s : LowState) (reg value : Nat) :
    SwdError × LowState :=
  swd_write_dp_raw ora s reg value

/-- `dap_read_ap` (dap.c 176-210): bank select, pipelined AP read, then a
`RDBUFF` read for the actual value. -/
def dap_read_ap (ora : WireOracle) (s : LowState) (apsel reg : Nat) :
    SwdRes × LowState :=
  if s.connected = false then ({ error := .notConnected, value := 0 }, s)
  else
    let bank := (reg >>> 4) &&& 0xF
    let (e, s1) := select_ap_bank ora s apsel bank
    if e ≠ .ok then ({ error := e, value := 0 }, s1)
    else
      let (e2, v2, s2) := swd_read_ap_raw ora s1 reg
      if e2 ≠ .ok then ({ error := e2, value := v2 }, s2)
      else
        let (e3, v3, s3) := swd_read_dp_raw ora s2 DP_RDBUFF
        if e3 = .ok then ({ error := e3, value := v3 }, s3)
        else ({ error := e3, value := v2 }, s3)

/-- `dap_write_ap` (dap.c 212-235): bank select then AP write. -/
def dap_write_ap (ora : WireOracle) (s : LowState) (apsel reg value : Nat) :
    SwdError × LowState :=
  if s.connected = false then (.notConnected, s)
  else
    let bank := (reg >>> 4) &&& 0xF
    let (e, s1) := select_ap_bank ora s apsel bank
    if e ≠ .ok then (e, s1)
    else swd_write_ap_raw ora s1 reg value

/-- `dap_read_mem32` (dap.c 241-278): MEM-AP read through
`TAR`/`DRW`/`RDBUFF`.  Ghost: the access is recorded in `dmtrace`. -/
def dap_read_mem32 (ora : WireOracle) (s : LowState) (addr : Nat) :
    SwdRes × LowState :=
  if s.connected = false then ({ error := .notConnected, value := 0 }, s)
  else if addr &&& 0x3 ≠ 0 then ({ error := .alignment, value := 0 }, s)
  else
    let s := { s with dmtrace := s.dmtrace ++ [DmAccess.rd addr] }
    let (e, s1) := dap_write_ap ora s AP_RISCV AP_TAR addr
    if e ≠ .ok then ({ error := e, value := 0 }, s1)
    else
      let (e2, v2, s2) := swd_read_ap_raw ora s1 AP_DRW
      if e2 ≠ .ok then ({ error := e2, value := v2 }, s2)
      else
        let (e3, v3, s3) := swd_read_dp_raw ora s2 DP_RDBUFF
        if e3 = .ok then ({ error := e3, value := v3 }, s3)
        else ({ error := e3, value := v2 }, s3)

/-- `dap_write_mem32` (dap.c 280-314): MEM-AP write through `TAR`/`DRW`,
flushed by a `RDBUFF` read.  Ghost: the access is recorded in `dmtrace`. -/
def dap_write_mem32 (ora : WireOracle) (s : LowState) (addr value : Nat) :
    SwdError × LowState :=
  if s.connected = false then (.notConnected, s)
  else if addr &&& 0x3 ≠ 0 then (.alignment, s)
  else
    let s := { s with dmtrace := s.dmtrace ++ [DmAccess.wr addr value] }
    let (e, s1) := dap_write_ap ora s AP_RISCV AP_TAR addr
    if e ≠ .ok then (e, s1)
    else
      let (e2, s2) := dap_write_ap ora s1 AP_RISCV AP_DRW value
      if e2 ≠ .ok then (e2, s2)
      else
        let (r3, s3) := dap_read_dp ora s2 DP_RDBUFF
        if r3.error ≠ .ok then (r3.error, s3)
        else (.ok, s3)

/-- DM register byte offsets (rp2350.c 806-815, register index × 4). -/
def DM_DMCONTROL : Nat := 0x10 * 4

def DM_DMSTATUS : Nat := 0x11 * 4

def DM_ABSTRACTCS : Nat := 0x16 * 4

def DM_COMMAND : Nat := 0x17 * 4

def DM_DATA0 : Nat := 0x04 * 4

def DM_PROGBUF0 : Nat := 0x20 * 4

def DM_SBCS : Nat := 0x38 * 4

def DM_SBADDRESS0 : Nat := 0x39 * 4

def DM_SBDATA0 : Nat := 0x3C * 4

/-- `RP2350_NUM_HARTS` (rp2350.h). -/
def RP2350_NUM_HARTS : Nat := 2

/-- `hart_state_t`: per-hart halt bookkeeping and GPR mirror. -/
structure HartState where
  halt_state_known : Bool
  halted : Bool
  cache_valid : Bool
  cached_gprs : List Nat
  deriving DecidableEq, Repr

/-- Default hart state (all flags clear, zeroed GPR mirror). -/
def hartDefault : HartState :=
  { halt_state_known := false, halted := false, cache_valid := false,
    cached_gprs := List.replicate 32 0 }

/-- `rp2350_state_t`: DM flags plus the two-entry hart table. -/
structure Rp2350State where
  initialized : Bool
  sba_initialized : Bool
  cache_enabled : Bool
  harts : List HartState
  deriving DecidableEq, Repr

/-- `swd_target_t`, split into the sub-DM state (`LowState`) and the
`rp2350_state_t` aggregate. -/
structure Target where
  low : LowState
  rp2350 : Rp2350State

/-- `validate_hart_id` (rp2350.c 833-835). -/
def validate_hart_id (hart_id : Nat) : Bool :=
  hart_id < RP2350_NUM_HARTS

/-- `target->rp2350.harts[i]`. -/
def Target.hart (t : Target) (i : Nat) : HartState :=
  t.rp2350.harts.getD i hartDefault

/-- Write back `target->rp2350.harts[i]`. -/
def Target.setHart (t : Target) (i : Nat) (h : HartState) : Target :=
  { t with rp2350 := { t.rp2350 with harts := t.rp2350.harts.set i h } }

/-- `dap_read_mem32` lifted to the full target state (the DM driver calls
it on the same `swd_target_t`; only the sub-DM fields are touched). -/
def dm_read32 (ora : WireOracle) (t : Target) (addr : Nat) :
    SwdRes × Target :=
  ((dap_read_mem32 ora t.low addr).1,
    { t with low := (dap_read_mem32 ora t.low addr).2 })

/-- `dap_write_mem32` lifted to the full target state. -/
def dm_write32 (ora : WireOracle) (t : Target) (addr value : Nat) :
    SwdError × Target :=
  ((dap_write_mem32 ora t.low addr value).1,
    { t with low := (dap_write_mem32 ora t.low addr value).2 })

/-- `make_dmcontrol` (rp2350.c 846-854): `dmactive=1`, `hartsel` at bit 16,
optional `haltreq` (bit 31), `resumereq` (bit 30), `ndmreset` (bit 1). -/
def make_dmcontrol (hart_id : Nat) (haltreq resumereq ndmreset : Bool) : Nat :=
  let dmcontrol := 1 ||| (hart_id <<< 16)
  let dmcontrol := if haltreq then dmcontrol ||| (1 <<< 31) else dmcontrol
  let dmcontrol := if resumereq then dmcontrol ||| (1 <<< 30) else dmcontrol
  if ndmreset then dmcontrol ||| (1 <<< 1) else dmcontrol

/-- Iterations of `wait_abstract_command` (rp2350.c 860-887); the fuel
argument is the remaining iteration budget of the bounded `for` loop. -/
def wait_abstract_loop (ora : WireOracle) : Nat → Target → SwdError × Target
  | 0, t => (.timeout, t)
  | n + 1, t =>
    let (res, t1) := dm_read32 ora t DM_ABSTRACTCS
    if res.error ≠ .ok then (res.error, t1)
    else
      let busy := (res.value >>> 12) &&& 1
      let cmderr := (res.value >>> 8) &&& 0x7
      if busy = 0 then
        if cmderr ≠ 0 then
          let (_, t2) := dm_write32 ora t1 DM_ABSTRACTCS 0x00000700
          (.abstractCmd, t2)
        else (.ok, t1)
      else wait_abstract_loop ora n t1

/-- `wait_abstract_command` (rp2350.c 860-887): poll `ABSTRACTCS` up to 100
times; clear a non-zero `cmderr` (W1C 0x700) and fail with `AbstractCmd`. -/
def wait_abstract_command (ora : WireOracle) (t : Target) :
    SwdError × Target :=
  wait_abstract_loop ora 100 t

/-- Iterations of `poll_dmstatus_halted` (rp2350.c 903-932); fuel is the
remaining budget of the 10-iteration `for` loop. -/
def poll_dmstatus_loop (ora : WireOracle) (hart_id : Nat)
    (wait_for_halted : Bool) : Nat → Target → SwdError × Target
  | 0, t => (.timeout, t)
  | n + 1, t =>
    let (res, t1) := dm_read32 ora t DM_DMSTATUS
    if res.error ≠ .ok then (res.error, t1)
    else
      let allhalted := (res.value >>> 9) &&& 1 = 1
      let allrunning := (res.value >>> 11) &&& 1 = 1
      if wait_for_halted ∧ allhalted then
        let h := t1.hart hart_id
        (.ok, t1.setHart hart_id
          { h with halted := true, halt_state_known := true })
      else if ¬wait_for_halted ∧ allrunning then
        let h := t1.hart hart_id
        (.ok, t1.setHart hart_id
          { h with halted := false, halt_state_known := true })
      else poll_dmstatus_loop ora hart_id wait_for_halted n t1

/-- `poll_dmstatus_halted` (rp2350.c 903-932): poll `DMSTATUS` (bit 9
`allhalted` / bit 11 `allrunning`) up to 10 times, recording the observed
state into the hart on success; `Timeout` when the budget is exhausted. -/
def poll_dmstatus_halted (ora : WireOracle) (t : Target) (hart_id : Nat)
    (wait_for_halted : Bool) : SwdError × Target :=
  poll_dmstatus_loop ora hart_id wait_for_halted 10 t

/-- `rp2350_init_sba` (rp2350.c 1675-1711): read `SBCS`, require
`sbasize ≠ 0`, clear a sticky `sberror`, then configure 32-bit access with
`sbreadonaddr`. -/
def rp2350_init_sba (ora : WireOracle) (t : Target) : SwdError × Target :=
  let (res, t1) := dm_read32 ora t DM_SBCS
  if res.error ≠ .ok then (res.error, t1)
  else
    let sbasize := (res.value >>> 5) &&& 0x7F
    if sbasize = 0 then (.invalidState, t1)
    else
      let sberror := (res.value >>> 12) &&& 0x7
      let t2 :=
        if sberror ≠ 0 then
          (dm_write32 ora t1 DM_SBCS (res.value ||| (0x7 <<< 12))).2
        else t1
      let sbcs := (2 <<< 17) ||| (1 <<< 20)
      let (err, t3) := dm_write32 ora t2 DM_SBCS sbcs
      if err = .ok then
        (err, { t3 with rp2350 := { t3.rp2350 with sba_initialized := true } })
      else (err, t3)

/-- `rp2350_init` (rp2350.c 938-1033): the RP2350 DM activation sequence.
`SELECT` is written twice through the raw `dap_write_dp` path (bank 0, then
bank 1) without touching the bank-selection cache; the three `CSW`
handshake writes then go through `dap_write_ap`, whose cache check still
reflects bank 0.  On success the DM status must read `0x04010001`, the
`SELECT` register is returned to bank 0, the per-hart state is cleared and
`rp2350_init_sba` runs (its result ignored). -/
def rp2350_init (ora : WireOracle) (t : Target) : SwdError × Target :=
  if t.low.connected = false then (.notConnected, t)
  else if t.rp2350.initialized = true then (.ok, t)
  else
    let sel_bank0 := make_dp_select_rp2350 AP_RISCV 0 true
    let (e1, low1) := dap_write_dp ora t.low DP_SELECT sel_bank0
    let t1 := { t with low := low1 }
    if e1 ≠ .ok then (e1, t1)
    else
      let (e2, low2) := dap_write_ap ora t1.low AP_RISCV AP_CSW 0xA2000002
      let t2 := { t1 with low := low2 }
      if e2 ≠ .ok then (e2, t2)
      else
        let (e3, low3) := dap_write_ap ora t2.low AP_RISCV AP_TAR DM_DMCONTROL
        let t3 := { t2 with low := low3 }
        if e3 ≠ .ok then (e3, t3)
        else
          let sel_bank1 := make_dp_select_rp2350 AP_RISCV 1 true
          let (e4, low4) := dap_write_dp ora t3.low DP_SELECT sel_bank1
          let t4 := { t3 with low := low4 }
          if e4 ≠ .ok then (e4, t4)
          else
            let (e5, low5) := dap_write_ap ora t4.low AP_RISCV AP_CSW 0x00000000
            let t5 := { t4 with low := low5 }
            if e5 ≠ .ok then (e5, t5)
            else
              let (_, low6) := dap_read_dp ora t5.low DP_RDBUFF
              let t6 := { t5 with low := low6 }
              let (e7, low7) := dap_write_ap ora t6.low AP_RISCV AP_CSW 0x00000001
              let t7 := { t6 with low := low7 }
              if e7 ≠ .ok then (e7, t7)
              else
                let (_, low8) := dap_read_dp ora t7.low DP_RDBUFF
                let t8 := { t7 with low := low8 }
                let (e9, low9) := dap_write_ap ora t8.low AP_RISCV AP_CSW 0x07FFFFC1
                let t9 := { t8 with low := low9 }
                if e9 ≠ .ok then (e9, t9)
                else
                  let (_, low10) := dap_read_dp ora t9.low DP_RDBUFF
                  let t10 := { t9 with low := low10 }
                  let (_, _, low11) := swd_read_ap_raw ora t10.low AP_CSW
                  let t11 := { t10 with low := low11 }
                  let (status_result, low12) := dap_read_dp ora t11.low DP_RDBUFF
                  let t12 := { t11 with low := low12 }
                  if status_result.error ≠ .ok then (status_result.error, t12)
                  else if status_result.value ≠ 0x04010001 then
                    (.invalidState, t12)
                  else
                    let (e13, low13) := dap_write_dp ora t12.low DP_SELECT sel_bank0
                    let t13 := { t12 with low := low13 }
                    if e13 ≠ .ok then (e13, t13)
                    else
                      let harts := t13.rp2350.harts.map fun h =>
                        { h with halt_state_known := false, halted := false,
                                 cache_valid := false }
                      let t14 := { t13 with rp2350 :=
                        { t13.rp2350 with initialized := true, harts := harts } }
                      let (_, t15) := rp2350_init_sba ora t14
                      (.ok, t15)

/-- The instruction-write loop of `execute_progbuf_simple` (rp2350.c
1070-1075): write each word to its `PROGBUF` slot, stopping at the first
error.  `i` is the current slot index. -/
def write_progbuf_list (ora : WireOracle) :
    List Nat → Nat → Target → SwdError × Target
  | [], _, t => (.ok, t)
  | inst :: rest, i, t =>
    let (err, t1) := dm_write32 ora t (DM_PROGBUF0 + i * 4) inst
    if err ≠ .ok then (err, t1)
    else write_progbuf_list ora rest (i + 1) t1

/-- `execute_progbuf_simple` (rp2350.c 1056-1085): reject a null pointer,
`count = 0` or `count > 16`; otherwise select the hart, write the `count`
instruction words to consecutive `PROGBUF` slots, issue the abstract
command with only `postexec` (bit 18) set and wait for completion.  The C
loop reads `instructions[i]` for `i < count`, modelled by `getD` on the
list. -/
def execute_progbuf_simple (ora : WireOracle) (t : Target) (hart_id : Nat)
    (instructions : Option (List Nat)) (count : Nat) : SwdError × Target :=
  match instructions with
  | none => (.invalidParam, t)
  | some insts =>
    if count = 0 ∨ count > 16 then (.invalidParam, t)
    else
      let dmcontrol := make_dmcontrol hart_id false false false
      let (err, t1) := dm_write32 ora t DM_DMCONTROL dmcontrol
      if err ≠ .ok then (err, t1)
      else
        let words := (List.range count).map fun i => insts.getD i 0
        let (err2, t2) := write_progbuf_list ora words 0 t1
        if err2 ≠ .ok then (err2, t2)
        else
          let command := 1 <<< 18
          let (err3, t3) := dm_write32 ora t2 DM_COMMAND command
          if err3 ≠ .ok then (err3, t3)
          else wait_abstract_command ora t3

/-- `rp2350_execute_progbuf` (rp2350.c 1090-1102): public wrapper with the
target/initialisation and hart-id guards. -/
def rp2350_execute_progbuf (ora : WireOracle) (t : Target) (hart_id : Nat)
    (instructions : Option (List Nat)) (count : Nat) : SwdError × Target :=
  if t.rp2350.initialized = false then (.notInitialized, t)
  else if validate_hart_id hart_id = false then (.invalidParam, t)
  else execute_progbuf_simple ora t hart_id instructions count

/-- `rp2350_halt` (rp2350.c 1108-1150): fast-path `AlreadyHalted` when the
hart is known halted; otherwise write `DMCONTROL` with `haltreq=1` and the
hart selected, poll for `allhalted`, and on success record
`halted/halt_state_known` and invalidate the GPR cache. -/
def rp2350_halt (ora : WireOracle) (t : Target) (hart_id : Nat) :
    SwdError × Target :=
  if t.rp2350.initialized = false then (.notInitialized, t)
  else if validate_hart_id hart_id = false then (.invalidParam, t)
  else
    let h := t.hart hart_id
    if h.halt_state_known ∧ h.halted then (.alreadyHalted, t)
    else
      let dmcontrol := make_dmcontrol hart_id true false false
      let (err, t1) := dm_write32 ora t DM_DMCONTROL dmcontrol
      if err ≠ .ok then (err, t1)
      else
        let (err2, t2) := poll_dmstatus_halted ora t1 hart_id true
        if err2 ≠ .ok then (err2, t2)
        else
          let h2 := t2.hart hart_id
          (.ok, t2.setHart hart_id
            { h2 with halted := true, halt_state_known := true,
                      cache_valid := false })

/-- `rp2350_is_halted` (rp2350.c 1339-1370): answer from the cached state
when `halt_state_known`; otherwise select the hart, read `DMSTATUS`,
record bit 9 into the hart state and return it; `false` on an invalid
target/hart or any communication error. -/
def rp2350_is_halted (ora : WireOracle) (t : Target) (hart_id : Nat) :
    Bool × Target :=
  if t.rp2350.initialized = false then (false, t)
  else if validate_hart_id hart_id = false then (false, t)
  else
    let h := t.hart hart_id
    if h.halt_state_known then (h.halted, t)
    else
      let dmcontrol := make_dmcontrol hart_id false false false
      let (err, t1) := dm_write32 ora t DM_DMCONTROL dmcontrol
      if err ≠ .ok then (false, t1)
      else
        let (res, t2) := dm_read32 ora t1 DM_DMSTATUS
        if res.error = .ok then
          let halted := (res.value >>> 9) &&& 1 = 1
          (halted, t2.setHart hart_id
            { (t2.hart hart_id) with halted := halted,
                                     halt_state_known := true })
        else (false, t2)

/-- `rp2350_read_reg` (rp2350.c 1376-1447): requires initialised target,
valid hart id, halted hart and `reg_num < 32`; serves from the GPR mirror
when enabled and valid, otherwise selects the hart, issues the
GPR-read abstract command, waits, reads `DATA0` and refreshes the mirror. -/
def rp2350_read_reg (ora : WireOracle) (t : Target) (hart_id reg_num : Nat) :
    SwdRes × Target :=
  if t.rp2350.initialized = false then
    ({ error := .notInitialized, value := 0 }, t)
  else if validate_hart_id hart_id = false then
    ({ error := .invalidParam, value := 0 }, t)
  else
    let h := t.hart hart_id
    if h.halted = false then ({ error := .notHalted, value := 0 }, t)
    else if reg_num ≥ 32 then ({ error := .invalidParam, value := 0 }, t)
    else if t.rp2350.cache_enabled ∧ h.cache_valid then
      ({ error := .ok, value := h.cached_gprs.getD reg_num 0 }, t)
    else
      let dmcontrol := make_dmcontrol hart_id false false false
      let (err, t1) := dm_write32 ora t DM_DMCONTROL dmcontrol
      if err ≠ .ok then ({ error := err, value := 0 }, t1)
      else
        let command := (0x1000 + reg_num) ||| (1 <<< 17) ||| (2 <<< 20)
        let (err2, t2) := dm_write32 ora t1 DM_COMMAND command
        if err2 ≠ .ok then ({ error := err2, value := 0 }, t2)
        else
          let (err3, t3) := wait_abstract_command ora t2
          if err3 ≠ .ok then ({ error := err3, value := 0 }, t3)
          else
            let (res, t4) := dm_read32 ora t3 DM_DATA0
            if res.error = .ok ∧ t4.rp2350.cache_enabled then
              let h4 := t4.hart hart_id
              (res, t4.setHart hart_id
                { h4 with cached_gprs := h4.cached_gprs.set reg_num res.value })
            else (res, t4)

/-- `rp2350_write_reg` (rp2350.c 1449-1509): same guards as the read;
writes `DATA0`, issues the GPR-write abstract command, waits, and updates
the mirror entry on success when caching is enabled. -/
def rp2350_write_reg (ora : WireOracle) (t : Target)
    (hart_id reg_num value : Nat) : SwdError × Target :=
  if t.rp2350.initialized = false then (.notInitialized, t)
  else if validate_hart_id hart_id = false then (.invalidParam, t)
  else
    let h := t.hart hart_id
    if h.halted = false then (.notHalted, t)
    else if reg_num ≥ 32 then (.invalidParam, t)
    else
      let dmcontrol := make_dmcontrol hart_id false false false
      let (err, t1) := dm_write32 ora t DM_DMCONTROL dmcontrol
      if err ≠ .ok then (err, t1)
      else
        let (err2, t2) := dm_write32 ora t1 DM_DATA0 value
        if err2 ≠ .ok then (err2, t2)
        else
          let command := (0x1000 + reg_num) ||| (1 <<< 16) ||| (1 <<< 17) |||
            (2 <<< 20)
          let (err3, t3) := dm_write32 ora t2 DM_COMMAND command
          if err3 ≠ .ok then (err3, t3)
          else
            let (err4, t4) := wait_abstract_command ora t3
            if err4 = .ok ∧ t4.rp2350.cache_enabled then
              let h4 := t4.hart hart_id
              (err4, t4.setHart hart_id
                { h4 with cached_gprs := h4.cached_gprs.set reg_num value })
            else (err4, t4)

/-- The register loop of `rp2350_read_all_regs` (rp2350.c 1523-1529):
read registers `i, i+1, …` while `n` registers remain. -/
def read_all_regs_loop (ora : WireOracle) (hart_id : Nat) :
    Nat → Nat → Target → SwdError × List Nat × Target
  | 0, _, t => (.ok, [], t)
  | n + 1, i, t =>
    let (res, t1) := rp2350_read_reg ora t hart_id i
    if res.error ≠ .ok then (res.error, [], t1)
    else
      let (e, rest, t2) := read_all_regs_loop ora hart_id n (i + 1) t1
      (e, res.value :: rest, t2)

/-- `rp2350_read_all_regs` (rp2350.c 1511-1537): read all 32 GPRs and mark
the mirror valid when caching is enabled. -/
def rp2350_read_all_regs (ora : WireOracle) (t : Target) (hart_id : Nat) :
    SwdError × List Nat × Target :=
  if validate_hart_id hart_id = false then (.invalidParam, [], t)
  else
    let (e, regs, t1) := read_all_regs_loop ora hart_id 32 0 t
    if e ≠ .ok then (e, regs, t1)
    else if t1.rp2350.cache_enabled then
      let h := t1.hart hart_id
      (.ok, regs, t1.setHart hart_id { h with cache_valid := true })
    else (.ok, regs, t1)

/-- `rp2350_read_csr` (rp2350.c 1551-1599): requires a halted hart; saves
s0 (x8), runs `csrr s0, csr` + `ebreak` through the program buffer, reads
s0 back and restores it (also on the error path). -/
def rp2350_read_csr (ora : WireOracle) (t : Target) (hart_id csr_addr : Nat) :
    SwdRes × Target :=
  if t.rp2350.initialized = false then
    ({ error := .notInitialized, value := 0 }, t)
  else if validate_hart_id hart_id = false then
    ({ error := .invalidParam, value := 0 }, t)
  else
    let h := t.hart hart_id
    if h.halted = false then ({ error := .notHalted, value := 0 }, t)
    else
      let (saved_s0, t1) := rp2350_read_reg ora t hart_id 8
      if saved_s0.error ≠ .ok then (saved_s0, t1)
      else
        let csr_inst := 0x00002473 ||| (csr_addr <<< 20)
        let progbuf := [csr_inst, 0x00100073]
        let (err, t2) := execute_progbuf_simple ora t1 hart_id (some progbuf) 2
        if err ≠ .ok then
          let (_, t3) := rp2350_write_reg ora t2 hart_id 8 saved_s0.value
          ({ error := err, value := 0 }, t3)
        else
          let (res, t4) := rp2350_read_reg ora t2 hart_id 8
          let (_, t5) := rp2350_write_reg ora t4 hart_id 8 saved_s0.value
          (res, t5)

/-- `rp2350_write_csr` (rp2350.c 1601-1647): requires a halted hart; saves
s0, moves the value into s0, runs `csrw csr, s0` + `ebreak` through the
program buffer, and restores s0 regardless of the outcome. -/
def rp2350_write_csr (ora : WireOracle) (t : Target)
    (hart_id csr_addr value : Nat) : SwdError × Target :=
  if t.rp2350.initialized = false then (.notInitialized, t)
  else if validate_hart_id hart_id = false then (.invalidParam, t)
  else
    let h := t.hart hart_id
    if h.halted = false then (.notHalted, t)
    else
      let (saved_s0, t1) := rp2350_read_reg ora t hart_id 8
      if saved_s0.error ≠ .ok then (saved_s0.error, t1)
      else
        let (err, t2) := rp2350_write_reg ora t1 hart_id 8 value
        if err ≠ .ok then
          let (_, t3) := rp2350_write_reg ora t2 hart_id 8 saved_s0.value
          (err, t3)
        else
          let csr_inst := 0x00041073 ||| (csr_addr <<< 20)
          let progbuf := [csr_inst, 0x00100073]
          let (err2, t3) := execute_progbuf_simple ora t2 hart_id (some progbuf) 2
          let (_, t4) := rp2350_write_reg ora t3 hart_id 8 saved_s0.value
          (err2, t4)

/-- `rp2350_read_pc` (rp2350.c 1543-1545): alias of CSR 0x7b1 (DPC). -/
def rp2350_read_pc (ora : WireOracle) (t : Target) (hart_id : Nat) :
    SwdRes × Target :=
  rp2350_read_csr ora t hart_id 0x7b1

/-- `rp2350_write_pc` (rp2350.c 1547-1549): alias of CSR 0x7b1 (DPC). -/
def rp2350_write_pc (ora : WireOracle) (t : Target) (hart_id pc : Nat) :
    SwdError × Target :=
  rp2350_write_csr ora t hart_id 0x7b1 pc

/-- `read_dcsr` (rp2350.c 1197-1199): DCSR = CSR 0x7b0. -/
def read_dcsr (ora : WireOracle) (t : Target) (hart_id : Nat) :
    SwdRes × Target :=
  rp2350_read_csr ora t hart_id 0x7b0

/-- `write_dcsr` (rp2350.c 1202-1204). -/
def write_dcsr (ora : WireOracle) (t : Target) (hart_id value : Nat) :
    SwdError × Target :=
  rp2350_write_csr ora t hart_id 0x7b0 value

/-- `rp2350_step` (rp2350.c 1206-1279): requires a halted hart; sets the
DCSR step bit via the program buffer, releases the hart with
`resumereq`, waits for the automatic halt, restores DCSR and returns the
restore result. -/
def rp2350_step (ora : WireOracle) (t : Target) (hart_id : Nat) :
    SwdError × Target :=
  if t.rp2350.initialized = false then (.notInitialized, t)
  else if validate_hart_id hart_id = false then (.invalidParam, t)
  else
    let h := t.hart hart_id
    if h.halted = false then (.notHalted, t)
    else
      let (dcsr_result, t1) := read_dcsr ora t hart_id
      if dcsr_result.error ≠ .ok then (dcsr_result.error, t1)
      else
        let dcsr_stepped := dcsr_result.value ||| (1 <<< 2)
        let (err, t2) := write_dcsr ora t1 hart_id dcsr_stepped
        if err ≠ .ok then (err, t2)
        else
          let dmcontrol := make_dmcontrol hart_id false false false
          let (err2, t3) := dm_write32 ora t2 DM_DMCONTROL dmcontrol
          if err2 ≠ .ok then (err2, t3)
          else
            let dmcontrol2 := make_dmcontrol hart_id false true false
            let (err3, t4) := dm_write32 ora t3 DM_DMCONTROL dmcontrol2
            if err3 ≠ .ok then (err3, t4)
            else
              let h4 := t4.hart hart_id
              let t5 := t4.setHart hart_id
                { h4 with halted := false, halt_state_known := true }
              let (err4, t6) := poll_dmstatus_halted ora t5 hart_id true
              if err4 ≠ .ok then (err4, t6)
              else
                let h6 := t6.hart hart_id
                let t7 := t6.setHart hart_id
                  { h6 with halted := true, halt_state_known := true,
                            cache_valid := false }
                let (err5, t8) := write_dcsr ora t7 hart_id dcsr_result.value
                (err5, t8)

/-- `rp2350_read_mem32` (rp2350.c 1717-1745): SBA path (`SBADDRESS0` write
triggers the fetch, `SBDATA0` read returns it) when SBA is initialised,
with a MEM-AP fallback.  No halt-state check. -/
def rp2350_read_mem32 (ora : WireOracle) (t : Target) (addr : Nat) :
    SwdRes × Target :=
  if t.rp2350.initialized = false then
    ({ error := .notInitialized, value := 0 }, t)
  else if addr &&& 0x3 ≠ 0 then ({ error := .alignment, value := 0 }, t)
  else if t.rp2350.sba_initialized then
    let (err, t1) := dm_write32 ora t DM_SBADDRESS0 addr
    if err ≠ .ok then ({ error := err, value := 0 }, t1)
    else dm_read32 ora t1 DM_SBDATA0
  else dm_read32 ora t addr

/-- `rp2350_write_mem32` (rp2350.c 1747-1767): SBA path (`SBADDRESS0` then
`SBDATA0`) when initialised, MEM-AP fallback otherwise.  No halt-state
check. -/
def rp2350_write_mem32 (ora : WireOracle) (t : Target) (addr value : Nat) :
    SwdError × Target :=
  if t.rp2350.initialized = false then (.notInitialized, t)
  else if addr &&& 0x3 ≠ 0 then (.alignment, t)
  else if t.rp2350.sba_initialized then
    let (err, t1) := dm_write32 ora t DM_SBADDRESS0 addr
    if err ≠ .ok then (err, t1)
    else dm_write32 ora t1 DM_SBDATA0 value
  else dm_write32 ora t addr value

/-- `trace_record_t`: PC, instruction word and (optionally) the 32 GPRs
captured for one traced instruction. -/
structure TraceRecord where
  pc : Nat
  instruction : Nat
  regs : List Nat
  deriving Repr

/-- Outcome of one iteration of the `rp2350_trace` loop body (rp2350.c
2009-2052).  `failPre` is a failure of the PC read, the instruction fetch
or the register capture (before `count++`); `stopCb` is the callback
returning false and `failStep` a failing `rp2350_step` (both after
`count++`). -/
inductive IterOut
  | failPre (e : SwdError) (t : Target)
  | stopCb (t : Target)
  | failStep (e : SwdError) (t : Target)
  | next (t : Target)

/-- The body of the `rp2350_trace` loop (rp2350.c 2009-2052): read the PC,
fetch the instruction at it, optionally capture all GPRs, invoke the
callback, then single-step. -/
def trace_iter (ora : WireOracle) (cb : TraceRecord → Bool)
    (capture_regs : Bool) (hart_id : Nat) (t : Target) : IterOut :=
  let (pc_result, t1) := rp2350_read_pc ora t hart_id
  if pc_result.error ≠ .ok then .failPre pc_result.error t1
  else
    let pc := pc_result.value
    let (inst_result, t2) := rp2350_read_mem32 ora t1 pc
    if inst_result.error ≠ .ok then .failPre inst_result.error t2
    else
      let (eR, regs, t3) :=
        if capture_regs then rp2350_read_all_regs ora t2 hart_id
        else (.ok, List.replicate 32 0, t2)
      if eR ≠ .ok then .failPre eR t3
      else
        let record : TraceRecord :=
          { pc := pc, instruction := inst_result.value, regs := regs }
        if cb record = false then .stopCb t3
        else
          let (eS, t4) := rp2350_step ora t3 hart_id
          if eS ≠ .ok then .failStep eS t4
          else .next t4

/-- The `while` loop of `rp2350_trace` (rp2350.c 2009-2052), with an
explicit fuel bound (`none` = fuel exhausted before the loop exited;
the C loop itself has no iteration bound when `max_instructions = 0`).
`count` is the number of instructions traced so far; the returned negated
error codes and swallowed-error cases reproduce the source's
`count > 0 ? (int)count : -err` returns, where `stopCb`/`failStep` see the
already-incremented count. -/
def trace_loop (ora : WireOracle) (cb : TraceRecord → Bool)
    (capture_regs : Bool) (hart_id max_instructions : Nat) :
    Nat → Target → Nat → Option Int
  | 0, _, _ => none
  | fuel + 1, t, count =>
    if max_instructions = 0 ∨ count < max_instructions then
      match trace_iter ora cb capture_regs hart_id t with
      | .failPre e _ =>
        some (if count > 0 then (count : Int) else -(e.code : Int))
      | .stopCb _ => some ((count + 1 : Nat) : Int)
      | .failStep e _ =>
        some (if count + 1 > 0 then ((count + 1 : Nat) : Int)
              else -(e.code : Int))
      | .next t1 =>
        trace_loop ora cb capture_regs hart_id max_instructions fuel t1
          (count + 1)
    else some ((count : Nat) : Int)

/-- `rp2350_trace` (rp2350.c 1980-2056): guard checks, ensure the hart is
halted (tolerating `AlreadyHalted`), then run the trace loop starting at
`count = 0`.  The fuel argument bounds the fuelled loop model only; the C
loop is unbounded. -/
def rp2350_trace (ora : WireOracle) (fuel : Nat) (t : Target)
    (hart_id max_instructions : Nat) (cb : TraceRecord → Bool)
    (capture_regs : Bool) : Option Int :=
  if t.rp2350.initialized = false then
    some (-(SwdError.notInitialized.code : Int))
  else if validate_hart_id hart_id = false then
    some (-(SwdError.invalidParam.code : Int))
  else
    let (preErr, t1) :=
      if (t.hart hart_id).halted = false then rp2350_halt ora t hart_id
      else (.ok, t)
    if preErr ≠ .ok ∧ preErr ≠ .alreadyHalted then some (-(preErr.code : Int))
    else trace_loop ora cb capture_regs hart_id max_instructions fuel t1 0

/-- A word-addressed 32-bit memory: the value stored at word index `i`
(byte address `4 * i`). -/
def WordMem := Nat → Nat

/-- The effect of `rp2350_read_mem32` on the word-addressed memory model
(the SBA fetch returns the word containing the 4-byte-aligned address;
unaligned addresses fail with `Alignment` as in rp2350.c 1724-1727). -/
def read_mem32_w (m : WordMem) (addr : Nat) : SwdError × Nat :=
  if addr &&& 0x3 ≠ 0 then (.alignment, 0)
  else (.ok, m (addr / 4))

/-- The effect of `rp2350_write_mem32` on the word-addressed memory model
(the SBA store replaces the word at the aligned address). -/
def write_mem32_w (m : WordMem) (addr value : Nat) : SwdError × WordMem :=
  if addr &&& 0x3 ≠ 0 then (.alignment, m)
  else (.ok, fun i => if i = addr / 4 then value else m i)

/-- `rp2350_read_mem8` (rp2350.c 1826-1833) over the word-addressed model:
read the containing word at `addr & ~3` and extract the byte at
`(addr & 3) * 8`. -/
def rp2350_read_mem8_w (m : WordMem) (addr : Nat) : SwdError × Nat :=
  let (e, w) := read_mem32_w m (addr &&& 0xFFFFFFFC)
  if e = .ok then
    let offset := addr &&& 3
    (e, (w >>> (offset * 8)) &&& 0xFF)
  else (e, w)

/-- `rp2350_write_mem8` (rp2350.c 1835-1847) over the word-addressed model:
read-modify-write of the word at `addr & ~3` with the byte lane mask
`~(0xFF << ((addr & 3) * 8))`. -/
def rp2350_write_mem8_w (m : WordMem) (addr value : Nat) :
    SwdError × WordMem :=
  let aligned_addr := addr &&& 0xFFFFFFFC
  let (e, current) := read_mem32_w m aligned_addr
  if e ≠ .ok then (e, m)
  else
    let offset := addr &&& 3
    let mask := 0xFFFFFFFF ^^^ (0xFF <<< (offset * 8))
    let new_value := (current &&& mask) ||| (value <<< (offset * 8))
    write_mem32_w m aligned_addr new_value

/-! ## Shared concrete artifacts for witnesses and counterexamples -/

/-- A wire oracle answering every transaction with a fixed ACK (read data 0
with correct parity). -/
def ackOracle (a : Nat) : WireOracle :=
  fun _ => { ack := a, value := 0, par := 0 }

/-- A consistent post-connection `LowState`: RISC-V AP bank 0 selected with
`ctrlsel`, default retry budget 5, no wire traffic yet. -/
def lowState0 : LowState :=
  { connected := true, pio_init := true, current_apsel := 0xA,
    current_bank := 0, ctrlsel := true, select_cache := 0xAD01,
    powered := true, retry_count := 5, last_ack := 0,
    lastSelect := some 0xAD01, ix := 0, dmtrace := [] }

/-- The outcome `swd_io_raw` would produce for the `k`-th retry attempt of
a primitive started in state `s` (attempt `k` is the wire transaction at
index `s.ix + k`). -/
def wire_attempt (ora : WireOracle) (s : LowState) (data : Nat)
    (write : Bool) (k : Nat) : IoOut :=
  (swd_io_raw ora { s with ix := s.ix + k } data write).1

/-- A concrete memory for the C6 witness. -/
def mem0 : WordMem := fun _ => 0x11223344

/-- The DAP-state fields untouched by the wire-level retry machinery
(everything except `ix` and `last_ack`). -/
def DapFieldsEq (s s' : LowState) : Prop :=
  s'.connected = s.connected ∧ s'.pio_init = s.pio_init ∧
  s'.current_apsel = s.current_apsel ∧ s'.current_bank = s.current_bank ∧
  s'.ctrlsel = s.ctrlsel ∧ s'.select_cache = s.select_cache ∧
  s'.retry_count = s.retry_count ∧ s'.lastSelect = s.lastSelect ∧
  s'.dmtrace = s.dmtrace

/-- The bank-selection cache invariant: the cache claims `ctrlsel` is set
and the last value written to `SELECT` is exactly the encoding of the
cached `(apsel, bank)` pair. -/
def SelectCacheInv (s : LowState) : Prop :=
  s.ctrlsel = true ∧
  s.lastSelect = some (make_dp_select_rp2350 s.current_apsel s.current_bank true)

/-- An AP-layer API operation (the operations that reach `SELECT` through
the caching path `select_ap_bank`). -/
inductive ApOp
  | readAp (apsel reg : Nat)
  | writeAp (apsel reg value : Nat)

/-- Run a sequence of AP-layer operations, threading the DAP state. -/
def runApOps (ora : WireOracle) : List ApOp → LowState → LowState
  | [], s => s
  | op :: rest, s =>
    match op with
    | .readAp apsel reg => runApOps ora rest (dap_read_ap ora s apsel reg).2
    | .writeAp apsel reg value =>
      runApOps ora rest (dap_write_ap ora s apsel reg value).2

/-- A target that has connected but not yet initialised the DM, with a
consistent bank-selection cache. -/
def target0 : Target :=
  { low := lowState0,
    rp2350 := { initialized := false, sba_initialized := false,
                cache_enabled := false,
                harts := [hartDefault, hartDefault] } }

/-- A wire that faults on transaction 4 and accepts everything else. -/
def faultAt4Oracle : WireOracle :=
  fun n => if n = 4 then { ack := 4, value := 0, par := 0 }
           else { ack := 1, value := 0, par := 0 }

/-- The trace/connection view of the low state preserved by all wire-level
operations that are not MEM-AP accesses. -/
def TraceConnEq (s s' : LowState) : Prop :=
  s'.dmtrace = s.dmtrace ∧ s'.connected = s.connected

/-- A hart recorded as known-halted and one recorded as known-running. -/
def hartHalted : HartState :=
  { halt_state_known := true, halted := true, cache_valid := false,
    cached_gprs := List.replicate 32 0 }

def hartRunning : HartState :=
  { halt_state_known := true, halted := false, cache_valid := false,
    cached_gprs := List.replicate 32 0 }

/-- A fully initialised target whose hart 0 is known halted and whose
hart 1 is known running. -/
def targetInit : Target :=
  { low := lowState0,
    rp2350 := { initialized := true, sba_initialized := true,
                cache_enabled := false,
                harts := [hartHalted, hartRunning] } }

/-! ## C9 — `rp2350_is_halted` -/

/-- Replace the hart table of a target (used to state that the memory
path never reads it). -/
def Target.withHarts (t : Target) (hs : List HartState) : Target :=
  { t with rp2350 := { t.rp2350 with harts := hs } }

/-- The target answer used for the `DMSTATUS` poll: `allhalted` (bit 9)
set; data parity of `0x200` is 1. -/
def allhaltedResp : WireResp := { ack := 1, value := 0x200, par := 1 }

/-- The target answer for every other transaction: OK, all-zero data. -/
def idleResp : WireResp := { ack := 1, value := 0, par := 0 }

/-- A 219-periodic wire: one trace-loop iteration from `traceBase` takes
exactly 219 transactions, and only the `DMSTATUS` poll read (position 167
of each period) needs the `allhalted` answer. -/
def traceOra : WireOracle :=
  fun n => if n % 219 = 167 then allhaltedResp else idleResp

/-- A trace callback that never stops the loop. -/
def cbTrue : TraceRecord → Bool := fun _ => true

def lowSteady : LowState := { lowState0 with last_ack := 1 }

/-- The steady state of the trace loop under `traceOra`: each iteration
returns to it except for the ghost transaction counter and trace. -/
def traceBase : Target :=
  { low := lowSteady,
    rp2350 := { initialized := true, sba_initialized := true,
                cache_enabled := false, harts := [hartHalted, hartHalted] } }

/-- Two low states that agree on everything but the ghost fields, with
transaction counters congruent modulo the period of `traceOra`. -/
def LowSim (s s' : LowState) : Prop :=
  s'.connected = s.connected ∧ s'.pio_init = s.pio_init ∧
  s'.current_apsel = s.current_apsel ∧ s'.current_bank = s.current_bank ∧
  s'.ctrlsel = s.ctrlsel ∧ s'.select_cache = s.select_cache ∧
  s'.powered = s.powered ∧ s'.retry_count = s.retry_count ∧
  s'.last_ack = s.last_ack ∧ s'.lastSelect = s.lastSelect ∧
  s'.ix % 219 = s.ix % 219

/-- `LowSim` on the session state plus equality of the DM state. -/
def TargetSim (t t' : Target) : Prop :=
  LowSim t.low t'.low ∧ t'.rp2350 = t.rp2350

/-- The state one full trace-loop iteration reaches from `traceBase`
(defined by running the loop body; the iteration succeeds, see
`traceBase_iter`). -/
def traceNext : Target :=
  match trace_iter traceOra cbTrue false 0 traceBase with
  | .next u => u
  | _ => traceBase

/-! ## C8 — SWCLK clock-divider computation -/

/-- C8 counterexample: the code computes `(((sys+freq-1)/freq)+3)/4`
(an integer floor division), not the claimed
`ceil((ceil(sys_khz/freq_khz) + 3)/4)`: at `sys = 150000 kHz`,
`freq = 1000 kHz` the code yields divider 38 while the claimed formula
(with `⌈/⌉` the mathematical ceiling division) yields 39. -/
theorem C8_counterexample :
    swd_frequency_divider 150000 1000 = 38 ∧
      min 65535 (max 1 (((150000 : Nat) ⌈/⌉ 1000 + 3) ⌈/⌉ 4)) = 39 := by
  refine ⟨by decide, ?_⟩
  rw [Nat.ceilDiv_eq_add_pred_div, Nat.ceilDiv_eq_add_pred_div]
  decide

/-- C8 (amended): for every `freq_khz > 0` the divider equals
`ceil(ceil(sys_khz / freq_khz) / 4)` — the `+3` in the source already
realises the ceiling of the division by the 4 cycles-per-bit — clamped to
`[1, 65535]`. -/
theorem C8_divider (clk_sys_khz freq_khz : Nat) (hf : 0 < freq_khz) :
    swd_frequency_divider clk_sys_khz freq_khz =
      min 65535 (max 1 ((clk_sys_khz ⌈/⌉ freq_khz) ⌈/⌉ 4)) := by
  rw [Nat.ceilDiv_eq_add_pred_div, Nat.ceilDiv_eq_add_pred_div]
  simp only [swd_frequency_divider, Nat.min_def, Nat.max_def]
  split_ifs <;> omega

/-- C8 witness: the amended divider formula evaluated at
`sys = 150000 kHz`, `freq = 1000 kHz`. -/
theorem C8_divider_witness :
    0 < 1000 ∧ swd_frequency_divider 150000 1000 =
      min 65535 (max 1 (((150000 : Nat) ⌈/⌉ 1000) ⌈/⌉ 4)) :=
  ⟨by decide, C8_divider 150000 1000 (by decide)⟩

/-! ## C5 — malformed-ACK handling in `swd_io_raw` -/

/-- C5 counterexample: `swd_io_raw` re-drives a line reset only for
ACK = `SWD_ACK_ERROR`; the other malformed ACK values 0, 3, 5 and 6 return
the `Protocol` error with no line reset, contradicting the claim that
every non-OK/WAIT/FAULT ACK re-drives a line reset. -/
theorem C5_counterexample :
    ((swd_io_raw (ackOracle 0) lowState0 0 false).1 =
      { err := .protocol, data := 0, lineReset := false }) ∧
    ((swd_io_raw (ackOracle 3) lowState0 0 false).1 =
      { err := .protocol, data := 0, lineReset := false }) ∧
    ((swd_io_raw (ackOracle 5) lowState0 0 false).1 =
      { err := .protocol, data := 0, lineReset := false }) ∧
    ((swd_io_raw (ackOracle 6) lowState0 0 false).1 =
      { err := .protocol, data := 0, lineReset := false }) := by
  decide

/-- C5 (amended): on any ACK value other than OK (001), WAIT (010) and
FAULT (100), `swd_io_raw` returns the `Protocol` error; it re-drives a
line reset exactly when the ACK is the all-ones `SWD_ACK_ERROR` pattern
(0b111), and returns `Protocol` without a line reset for the remaining
malformed values. -/
theorem C5_malformed_ack (ora : WireOracle) (s : LowState) (data : Nat)
    (write : Bool) (hp : s.pio_init = true)
    (hack : ¬((ora s.ix).ack % 8 = 1 ∨ (ora s.ix).ack % 8 = 2 ∨
      (ora s.ix).ack % 8 = 4)) :
    (swd_io_raw ora s data write).1.err = .protocol ∧
    ((swd_io_raw ora s data write).1.lineReset = true ↔
      (ora s.ix).ack % 8 = SWD_ACK_ERROR) := by
  push_neg at hack
  obtain ⟨h1, h2, h4⟩ := hack
  unfold swd_io_raw SWD_ACK_OK SWD_ACK_WAIT SWD_ACK_FAULT SWD_ACK_ERROR
  simp only [hp]
  split_ifs with hc1 hc2 hc3 <;> simp_all

/-- C5 witness: a session with every transaction answered by the all-ones
ACK: the transaction returns `Protocol` and drives a line reset. -/
theorem C5_malformed_ack_witness :
    (swd_io_raw (ackOracle 7) lowState0 0 false).1.err = .protocol ∧
    ((swd_io_raw (ackOracle 7) lowState0 0 false).1.lineReset = true ↔
      (ackOracle 7 lowState0.ix).ack % 8 = SWD_ACK_ERROR) :=
  C5_malformed_ack (ackOracle 7) lowState0 0 false (by decide) (by decide)

/-! ## C2 — WAIT retry behaviour of the raw DP/AP primitives -/

/-- The result part of `swd_io_raw` depends on the state only through
`pio_init` and the transaction index. -/
theorem swd_io_raw_fst_congr (ora : WireOracle) (s s' : LowState)
    (data : Nat) (write : Bool) (h1 : s.pio_init = s'.pio_init)
    (h2 : s.ix = s'.ix) :
    (swd_io_raw ora s data write).1 = (swd_io_raw ora s' data write).1 := by
  simp only [swd_io_raw, h1, h2]
  split_ifs <;> rfl

/-- On an initialised PIO, `swd_io_raw` consumes exactly one wire
transaction and only touches `ix` and `last_ack`. -/
theorem swd_io_raw_step (ora : WireOracle) (s : LowState) (data : Nat)
    (write : Bool) (hp : s.pio_init = true) :
    (swd_io_raw ora s data write).2 =
      { s with ix := s.ix + 1, last_ack := (ora s.ix).ack % 8 } := by
  simp only [swd_io_raw, hp]
  split_ifs <;> simp_all

/-- The first attempt is the transaction at the current index. -/
theorem wire_attempt_zero (ora : WireOracle) (s : LowState) (data : Nat)
    (write : Bool) :
    wire_attempt ora s data write 0 = (swd_io_raw ora s data write).1 := by
  unfold wire_attempt
  exact swd_io_raw_fst_congr ora _ s data write rfl rfl

/-- Attempts of the post-transaction state are attempts of the original
state, shifted by one. -/
theorem wire_attempt_shift (ora : WireOracle) (s : LowState)
    (a data : Nat) (write : Bool) (k : Nat) :
    wire_attempt ora { s with ix := s.ix + 1, last_ack := a } data write k =
      wire_attempt ora s data write (k + 1) := by
  unfold wire_attempt
  apply swd_io_raw_fst_congr
  · rfl
  · show s.ix + 1 + k = s.ix + (k + 1)
    omega

/-- Exhaustion case of the retry loop: when the first `n` attempts all
answer WAIT, `swd_retry` returns the `Wait` error after consuming exactly
`n` wire transactions. -/
theorem swd_retry_all_wait (ora : WireOracle) (data : Nat) (write : Bool) :
    ∀ (n : Nat) (s : LowState), s.pio_init = true →
      (∀ k, k < n → (wire_attempt ora s data write k).err = .wait) →
      (swd_retry ora data write n s).1 = .wait ∧
      (swd_retry ora data write n s).2.2.ix = s.ix + n := by
  intro n
  induction n with
  | zero => intro s _ _; exact ⟨rfl, rfl⟩
  | succ m ih =>
    intro s hp hall
    have h0 := hall 0 (Nat.succ_pos m)
    rw [wire_attempt_zero] at h0
    unfold swd_retry
    rcases hio : swd_io_raw ora s data write with ⟨o, s1⟩
    rw [hio] at h0
    have ho : o.err = .wait := h0
    have hs1 : s1 = { s with ix := s.ix + 1, last_ack := (ora s.ix).ack % 8 } := by
      have hstep := swd_io_raw_step ora s data write hp
      rw [hio] at hstep
      exact hstep
    dsimp only
    rw [if_pos ho]
    have hp1 : s1.pio_init = true := by rw [hs1]; exact hp
    have hnext : ∀ k, k < m →
        (wire_attempt ora s1 data write k).err = .wait := by
      intro k hk
      rw [hs1, wire_attempt_shift]
      exact hall (k + 1) (Nat.succ_lt_succ hk)
    have hrec := ih s1 hp1 hnext
    refine ⟨hrec.1, ?_⟩
    rw [hrec.2, hs1]
    show s.ix + 1 + m = s.ix + (m + 1)
    omega

/-- Early-exit case of the retry loop: if attempt `i < n` is the first
non-WAIT attempt, `swd_retry` returns that attempt's error after
consuming exactly `i + 1` wire transactions. -/
theorem swd_retry_first_non_wait (ora : WireOracle) (data : Nat)
    (write : Bool) :
    ∀ (i n : Nat) (s : LowState), s.pio_init = true → i < n →
      (∀ k, k < i → (wire_attempt ora s data write k).err = .wait) →
      (wire_attempt ora s data write i).err ≠ .wait →
      (swd_retry ora data write n s).1 =
        (wire_attempt ora s data write i).err ∧
      (swd_retry ora data write n s).2.2.ix = s.ix + i + 1 := by
  intro i
  induction i with
  | zero =>
    intro n s hp hn _ hnw
    obtain ⟨m, rfl⟩ := Nat.exists_eq_succ_of_ne_zero (Nat.pos_iff_ne_zero.mp hn)
    rw [wire_attempt_zero] at hnw ⊢
    unfold swd_retry
    rcases hio : swd_io_raw ora s data write with ⟨o, s1⟩
    rw [hio] at hnw
    have hnw' : o.err ≠ .wait := hnw
    have hs1 : s1 = { s with ix := s.ix + 1, last_ack := (ora s.ix).ack % 8 } := by
      have hstep := swd_io_raw_step ora s data write hp
      rw [hio] at hstep
      exact hstep
    dsimp only
    rw [if_neg hnw']
    refine ⟨rfl, ?_⟩
    show s1.ix = s.ix + 0 + 1
    rw [hs1]
  | succ j ih =>
    intro n s hp hn hbefore hnw
    obtain ⟨m, rfl⟩ := Nat.exists_eq_succ_of_ne_zero
      (Nat.pos_iff_ne_zero.mp (Nat.lt_of_le_of_lt (Nat.zero_le _) hn))
    have h0 := hbefore 0 (Nat.succ_pos j)
    rw [wire_attempt_zero] at h0
    unfold swd_retry
    rcases hio : swd_io_raw ora s data write with ⟨o, s1⟩
    rw [hio] at h0
    have ho : o.err = .wait := h0
    have hs1 : s1 = { s with ix := s.ix + 1, last_ack := (ora s.ix).ack % 8 } := by
      have hstep := swd_io_raw_step ora s data write hp
      rw [hio] at hstep
      exact hstep
    dsimp only
    rw [if_pos ho]
    have hp1 : s1.pio_init = true := by rw [hs1]; exact hp
    have hb1 : ∀ k, k < j →
        (wire_attempt ora s1 data write k).err = .wait := by
      intro k hk
      rw [hs1, wire_attempt_shift]
      exact hbefore (k + 1) (Nat.succ_lt_succ hk)
    have hnw1 : (wire_attempt ora s1 data write j).err ≠ .wait := by
      rw [hs1, wire_attempt_shift]
      exact hnw
    have hrec := ih m s1 hp1 (Nat.lt_of_succ_lt_succ hn) hb1 hnw1
    constructor
    · rw [hrec.1, hs1, wire_attempt_shift]
    · rw [hrec.2, hs1]
      show s.ix + 1 + j + 1 = s.ix + (j + 1) + 1
      omega

/-- `swd_write_ap_raw` is the retry loop with the read-back data and the
ghost `SELECT` bookkeeping dropped. -/
theorem swd_write_ap_raw_eta (ora : WireOracle) (s : LowState)
    (reg value : Nat) :
    swd_write_ap_raw ora s reg value =
      ((swd_retry ora value true s.retry_count s).1,
        (swd_retry ora value true s.retry_count s).2.2) := by
  unfold swd_write_ap_raw
  rcases hr : swd_retry ora value true s.retry_count s with ⟨e, d, s1⟩
  rfl

/-- The error and consumed-transaction count of `swd_write_dp_raw` are
those of the underlying retry loop. -/
theorem swd_write_dp_raw_eta (ora : WireOracle) (s : LowState)
    (reg value : Nat) :
    (swd_write_dp_raw ora s reg value).1 =
      (swd_retry ora value true s.retry_count s).1 ∧
    (swd_write_dp_raw ora s reg value).2.ix =
      (swd_retry ora value true s.retry_count s).2.2.ix := by
  unfold swd_write_dp_raw
  rcases hr : swd_retry ora value true s.retry_count s with ⟨e, d, s1⟩
  dsimp only
  split_ifs <;> exact ⟨rfl, rfl⟩

/-- C2 counterexample: with the default `retry_count = 5` and a target
that answers WAIT to every transaction, `swd_read_dp_raw` returns the
`Wait` error — not the claimed `Timeout` — so an exhausted WAIT retry
budget does escape to the caller as `Wait`. -/
theorem C2_counterexample :
    lowState0.retry_count = 5 ∧
    (swd_read_dp_raw (ackOracle 2) lowState0 DP_IDCODE).1 = .wait ∧
    (swd_read_dp_raw (ackOracle 2) lowState0 DP_IDCODE).1 ≠ .timeout := by
  refine ⟨rfl, ?_, ?_⟩ <;> decide

/-- C2 (amended): for each of the four raw DP/AP primitives, a WAIT
acknowledgment is retried internally up to `retry_count` times, any
non-WAIT attempt terminates the loop immediately with that attempt's
result (after exactly `i + 1` wire transactions when attempt `i` is the
first non-WAIT one), and if every attempt yields WAIT the call returns
the `Wait` error (not `Timeout`). -/
theorem C2_wait_retry (ora : WireOracle) (s : LowState) (reg value : Nat)
    (hp : s.pio_init = true) :
    ((∀ k, k < s.retry_count → (wire_attempt ora s 0 false k).err = .wait) →
      (swd_read_dp_raw ora s reg).1 = .wait ∧
      (swd_read_ap_raw ora s reg).1 = .wait) ∧
    ((∀ k, k < s.retry_count → (wire_attempt ora s value true k).err = .wait) →
      (swd_write_dp_raw ora s reg value).1 = .wait ∧
      (swd_write_ap_raw ora s reg value).1 = .wait) ∧
    (∀ i, i < s.retry_count →
      (∀ k, k < i → (wire_attempt ora s 0 false k).err = .wait) →
      (wire_attempt ora s 0 false i).err ≠ .wait →
      (swd_read_dp_raw ora s reg).1 = (wire_attempt ora s 0 false i).err ∧
      (swd_read_dp_raw ora s reg).2.2.ix = s.ix + i + 1 ∧
      (swd_read_ap_raw ora s reg).1 = (wire_attempt ora s 0 false i).err ∧
      (swd_read_ap_raw ora s reg).2.2.ix = s.ix + i + 1) ∧
    (∀ i, i < s.retry_count →
      (∀ k, k < i → (wire_attempt ora s value true k).err = .wait) →
      (wire_attempt ora s value true i).err ≠ .wait →
      (swd_write_dp_raw ora s reg value).1 =
        (wire_attempt ora s value true i).err ∧
      (swd_write_dp_raw ora s reg value).2.ix = s.ix + i + 1 ∧
      (swd_write_ap_raw ora s reg value).1 =
        (wire_attempt ora s value true i).err ∧
      (swd_write_ap_raw ora s reg value).2.ix = s.ix + i + 1) := by
  refine ⟨?_, ?_, ?_, ?_⟩
  · intro hall
    have h1 := swd_retry_all_wait ora 0 false s.retry_count s hp hall
    exact ⟨h1.1, h1.1⟩
  · intro hall
    have h1 := swd_retry_all_wait ora value true s.retry_count s hp hall
    refine ⟨?_, ?_⟩
    · rw [(swd_write_dp_raw_eta ora s reg value).1]
      exact h1.1
    · rw [swd_write_ap_raw_eta]
      exact h1.1
  · intro i hi hbefore hnw
    have h1 := swd_retry_first_non_wait ora 0 false i s.retry_count s hp hi
      hbefore hnw
    exact ⟨h1.1, h1.2, h1.1, h1.2⟩
  · intro i hi hbefore hnw
    have h1 := swd_retry_first_non_wait ora value true i s.retry_count s hp hi
      hbefore hnw
    refine ⟨?_, ?_, ?_, ?_⟩
    · rw [(swd_write_dp_raw_eta ora s reg value).1]
      exact h1.1
    · rw [(swd_write_dp_raw_eta ora s reg value).2]
      exact h1.2
    · rw [swd_write_ap_raw_eta]
      exact h1.1
    · rw [swd_write_ap_raw_eta]
      exact h1.2

/-- C2 witness: the amended retry behaviour on the all-WAIT target with
the default retry budget. -/
theorem C2_wait_retry_witness :
    (swd_read_dp_raw (ackOracle 2) lowState0 0).1 = .wait ∧
    (swd_read_ap_raw (ackOracle 2) lowState0 0).1 = .wait :=
  (C2_wait_retry (ackOracle 2) lowState0 0 0 (by decide)).1 (by decide)

/-! ## C6 — byte read-modify-write over the word-addressed memory -/

theorem nat_or_shiftRight (x y s : Nat) :
    (x ||| y) >>> s = (x >>> s) ||| (y >>> s) := by
  apply Nat.eq_of_testBit_eq
  intro i
  simp [Nat.testBit_or, Nat.testBit_shiftRight]

theorem nat_and_shiftRight (x y s : Nat) :
    (x &&& y) >>> s = (x >>> s) &&& (y >>> s) := by
  apply Nat.eq_of_testBit_eq
  intro i
  simp [Nat.testBit_and, Nat.testBit_shiftRight]

theorem nat_or_and_distrib (x y z : Nat) :
    (x ||| y) &&& z = (x &&& z) ||| (y &&& z) := by
  apply Nat.eq_of_testBit_eq
  intro i
  simp [Nat.testBit_and, Nat.testBit_or, Bool.and_or_distrib_right]

theorem nat_shiftLeft_shiftRight_cancel (x s : Nat) : x <<< s >>> s = x := by
  rw [Nat.shiftLeft_eq, Nat.shiftRight_eq_div_pow]
  exact Nat.mul_div_cancel x (Nat.pos_pow_of_pos s (by omega))

theorem nat_shiftLeft_shiftRight_of_le (x : Nat) {s k : Nat} (h : k ≤ s) :
    x <<< s >>> k = x <<< (s - k) := by
  apply Nat.eq_of_testBit_eq
  intro i
  simp only [Nat.testBit_shiftLeft, Nat.testBit_shiftRight]
  rcases Nat.lt_or_ge (k + i) s with hc | hc
  · have h1 : ¬(k + i ≥ s) := by omega
    have h2 : ¬(i ≥ s - k) := by omega
    simp [h1, h2]
  · have h1 : k + i ≥ s := hc
    have h2 : i ≥ s - k := by omega
    have h3 : k + i - s = i - (s - k) := by omega
    simp [h1, h2, h3]

theorem nat_shiftLeft_shiftRight_of_ge (x : Nat) {s k : Nat} (h : s ≤ k) :
    x <<< s >>> k = x >>> (k - s) := by
  apply Nat.eq_of_testBit_eq
  intro i
  simp only [Nat.testBit_shiftLeft, Nat.testBit_shiftRight]
  have h1 : k + i ≥ s := by omega
  have h2 : k + i - s = k - s + i := by omega
  simp [h1, h2]

theorem nat_shiftRight_eq_zero (x k : Nat) (h : x < 2 ^ k) : x >>> k = 0 := by
  rw [Nat.shiftRight_eq_div_pow]
  exact Nat.div_eq_of_lt h

theorem nat_shiftLeft_and_eq_zero (x y k : Nat) (h : y < 2 ^ k) :
    (x <<< k) &&& y = 0 := by
  apply Nat.eq_of_testBit_eq
  intro i
  simp only [Nat.testBit_and, Nat.testBit_shiftLeft, Nat.zero_testBit]
  rcases Nat.lt_or_ge i k with hi | hi
  · simp [Nat.not_le.mpr hi]
  · have hy : y.testBit i = false := Nat.testBit_lt_two_pow (by
      calc y < 2 ^ k := h
      _ ≤ 2 ^ i := Nat.pow_le_pow_right (by omega) hi)
    simp [hy]

theorem nat_and_eq_self_of_lt_256 (v : Nat) (h : v < 256) : v &&& 0xFF = v := by
  have h2 := @Nat.and_pow_two_sub_one_of_lt_two_pow 8 v (by omega)
  simpa using h2

theorem nat_and_three (a : Nat) : a &&& 3 = a % 4 := by
  have h := Nat.and_pow_two_sub_one_eq_mod a 2
  norm_num at h
  exact h

/-- Extracting the written byte lane of the RMW mask leaves nothing. -/
theorem byte_lane_clear (k : Nat) (hk : k < 4) :
    (((0xFFFFFFFF : Nat) ^^^ (0xFF <<< (k * 8))) >>> (k * 8)) &&& 0xFF = 0 := by
  interval_cases k <;> decide

/-- The RMW mask is transparent on every other byte lane. -/
theorem byte_lane_keep (k j : Nat) (hk : k < 4) (hj : j < 4) (hne : j ≠ k) :
    (((0xFFFFFFFF : Nat) ^^^ (0xFF <<< (k * 8))) >>> (j * 8)) &&& 0xFF = 0xFF := by
  interval_cases k <;> interval_cases j <;>
    first
    | decide
    | exact absurd rfl hne

/-- A byte value shifted into lane `k` contributes nothing to lane `j ≠ k`. -/
theorem byte_lane_other (v k j : Nat) (hv : v < 256) (hk : k < 4) (hj : j < 4)
    (hne : j ≠ k) :
    ((v <<< (k * 8)) >>> (j * 8)) &&& 0xFF = 0 := by
  rcases Nat.lt_or_ge j k with h | h
  · rw [nat_shiftLeft_shiftRight_of_le v (by omega : j * 8 ≤ k * 8)]
    apply nat_shiftLeft_and_eq_zero
    have h8 : (2 : Nat) ^ 8 ≤ 2 ^ (k * 8 - j * 8) :=
      Nat.pow_le_pow_right (by omega) (by omega)
    omega
  · have hlt : k < j := by omega
    rw [nat_shiftLeft_shiftRight_of_ge v (by omega : k * 8 ≤ j * 8)]
    rw [nat_shiftRight_eq_zero]
    · exact Nat.zero_and 0xFF
    · have h8 : (2 : Nat) ^ 8 ≤ 2 ^ (j * 8 - k * 8) :=
        Nat.pow_le_pow_right (by omega) (by omega)
      omega

/-- C6: over the word-addressed memory model, writing byte `v` at address
`a` succeeds, a subsequent byte read at `a` returns `v`, the other three
byte lanes of the containing aligned word are unchanged, every other word
is unchanged, and the stored word is exactly the read-modify-write with
mask `0xFF << ((a mod 4) * 8)` of the word at `a & ~3`. -/
theorem C6_mem8_rmw (m : WordMem) (addr v : Nat) (hv : v < 2 ^ 8) :
    (rp2350_write_mem8_w m addr v).1 = .ok ∧
    rp2350_read_mem8_w (rp2350_write_mem8_w m addr v).2 addr = (.ok, v) ∧
    (∀ j, j < 4 → j ≠ addr % 4 →
      ((rp2350_write_mem8_w m addr v).2 ((addr &&& 0xFFFFFFFC) / 4) >>>
          (j * 8)) &&& 0xFF =
        (m ((addr &&& 0xFFFFFFFC) / 4) >>> (j * 8)) &&& 0xFF) ∧
    (∀ i, i ≠ (addr &&& 0xFFFFFFFC) / 4 →
      (rp2350_write_mem8_w m addr v).2 i = m i) ∧
    ((rp2350_write_mem8_w m addr v).2 ((addr &&& 0xFFFFFFFC) / 4) =
      (m ((addr &&& 0xFFFFFFFC) / 4) &&&
          (0xFFFFFFFF ^^^ (0xFF <<< ((addr % 4) * 8)))) |||
        (v <<< ((addr % 4) * 8))) := by
  have hc : ((0xFFFFFFFC : Nat) &&& 0x3) = 0 := by decide
  have halign : (addr &&& 0xFFFFFFFC) &&& 0x3 = 0 := by
    rw [Nat.and_assoc, hc, Nat.and_zero]
  have hoff : addr &&& 3 = addr % 4 := nat_and_three addr
  have h4 : addr % 4 < 4 := Nat.mod_lt _ (by omega)
  have hw : rp2350_write_mem8_w m addr v =
      (.ok, fun i => if i = (addr &&& 0xFFFFFFFC) / 4 then
        (m ((addr &&& 0xFFFFFFFC) / 4) &&&
            (0xFFFFFFFF ^^^ (0xFF <<< ((addr % 4) * 8)))) |||
          (v <<< ((addr % 4) * 8)) else m i) := by
    simp only [rp2350_write_mem8_w, read_mem32_w, write_mem32_w, halign, hoff]
    norm_num
  refine ⟨?_, ?_, ?_, ?_, ?_⟩
  · rw [hw]
  · rw [hw]
    simp only [rp2350_read_mem8_w, read_mem32_w, halign, hoff]
    norm_num
    rw [nat_or_shiftRight, nat_and_shiftRight, nat_shiftLeft_shiftRight_cancel,
      nat_or_and_distrib, Nat.and_assoc, byte_lane_clear (addr % 4) h4,
      Nat.and_zero, Nat.zero_or, nat_and_eq_self_of_lt_256 v (by omega)]
  · intro j hj hne
    rw [hw]
    dsimp only
    rw [if_pos rfl]
    rw [nat_or_shiftRight, nat_and_shiftRight, nat_or_and_distrib,
      Nat.and_assoc, byte_lane_keep (addr % 4) j h4 hj hne,
      byte_lane_other v (addr % 4) j (by omega) h4 hj hne, Nat.or_zero]
  · intro i hne
    rw [hw]
    simp only [if_neg hne]
  · rw [hw]
    dsimp only
    rw [if_pos rfl]

/-- C6 witness: writing byte `0xAB` at address `0x20000001` of a memory
holding `0x11223344` everywhere: the following byte read returns `0xAB`. -/
theorem C6_mem8_rmw_witness :
    (0xAB : Nat) < 2 ^ 8 ∧
    rp2350_read_mem8_w (rp2350_write_mem8_w mem0 0x20000001 0xAB).2
      0x20000001 = (.ok, 0xAB) :=
  ⟨by decide, (C6_mem8_rmw mem0 0x20000001 0xAB (by decide)).2.1⟩

/-! ## C1 — the bank-selection cache vs. the last `SELECT` write -/

theorem dapFieldsEq_refl (s : LowState) : DapFieldsEq s s :=
  ⟨rfl, rfl, rfl, rfl, rfl, rfl, rfl, rfl, rfl⟩

theorem dapFieldsEq_trans {a b c : LowState} (h1 : DapFieldsEq a b)
    (h2 : DapFieldsEq b c) : DapFieldsEq a c :=
  ⟨h2.1.trans h1.1, h2.2.1.trans h1.2.1, h2.2.2.1.trans h1.2.2.1,
    h2.2.2.2.1.trans h1.2.2.2.1, h2.2.2.2.2.1.trans h1.2.2.2.2.1,
    h2.2.2.2.2.2.1.trans h1.2.2.2.2.2.1,
    h2.2.2.2.2.2.2.1.trans h1.2.2.2.2.2.2.1,
    h2.2.2.2.2.2.2.2.1.trans h1.2.2.2.2.2.2.2.1,
    h2.2.2.2.2.2.2.2.2.trans h1.2.2.2.2.2.2.2.2⟩

theorem swd_io_raw_fields (ora : WireOracle) (s : LowState) (data : Nat)
    (write : Bool) : DapFieldsEq s (swd_io_raw ora s data write).2 := by
  unfold swd_io_raw
  dsimp only
  split_ifs <;> exact ⟨rfl, rfl, rfl, rfl, rfl, rfl, rfl, rfl, rfl⟩

theorem swd_retry_fields (ora : WireOracle) (data : Nat) (write : Bool) :
    ∀ (n : Nat) (s : LowState),
      DapFieldsEq s (swd_retry ora data write n s).2.2 := by
  intro n
  induction n with
  | zero => intro s; exact dapFieldsEq_refl s
  | succ m ih =>
    intro s
    unfold swd_retry
    rcases hio : swd_io_raw ora s data write with ⟨o, s1⟩
    have hf : DapFieldsEq s s1 := by
      have hx := swd_io_raw_fields ora s data write
      rw [hio] at hx
      exact hx
    dsimp only
    split_ifs
    · exact dapFieldsEq_trans hf (ih s1)
    · exact hf

theorem swd_read_dp_raw_fields (ora : WireOracle) (s : LowState) (reg : Nat) :
    DapFieldsEq s (swd_read_dp_raw ora s reg).2.2 :=
  swd_retry_fields ora 0 false s.retry_count s

theorem swd_read_ap_raw_fields (ora : WireOracle) (s : LowState) (reg : Nat) :
    DapFieldsEq s (swd_read_ap_raw ora s reg).2.2 :=
  swd_retry_fields ora 0 false s.retry_count s

theorem swd_write_ap_raw_fields (ora : WireOracle) (s : LowState)
    (reg value : Nat) :
    DapFieldsEq s (swd_write_ap_raw ora s reg value).2 := by
  rw [swd_write_ap_raw_eta]
  exact swd_retry_fields ora value true s.retry_count s

/-- Behaviour of `swd_write_dp_raw` on the ghost `lastSelect` field: a
successful `SELECT` write records the value, anything else leaves it and
all cache fields untouched. -/
theorem swd_write_dp_raw_state (ora : WireOracle) (s : LowState)
    (reg value : Nat) :
    ((swd_write_dp_raw ora s reg value).1 = .ok ∧ reg = DP_SELECT →
      (swd_write_dp_raw ora s reg value).2.lastSelect = some value) ∧
    (¬((swd_write_dp_raw ora s reg value).1 = .ok ∧ reg = DP_SELECT) →
      (swd_write_dp_raw ora s reg value).2.lastSelect = s.lastSelect) ∧
    (swd_write_dp_raw ora s reg value).2.connected = s.connected ∧
    (swd_write_dp_raw ora s reg value).2.pio_init = s.pio_init ∧
    (swd_write_dp_raw ora s reg value).2.current_apsel = s.current_apsel ∧
    (swd_write_dp_raw ora s reg value).2.current_bank = s.current_bank ∧
    (swd_write_dp_raw ora s reg value).2.ctrlsel = s.ctrlsel ∧
    (swd_write_dp_raw ora s reg value).2.select_cache = s.select_cache ∧
    (swd_write_dp_raw ora s reg value).2.retry_count = s.retry_count ∧
    (swd_write_dp_raw ora s reg value).2.dmtrace = s.dmtrace := by
  have hf := swd_retry_fields ora value true s.retry_count s
  unfold swd_write_dp_raw
  rcases hr : swd_retry ora value true s.retry_count s with ⟨e, d, s1⟩
  rw [hr] at hf
  dsimp only
  split_ifs with hsel
  · refine ⟨fun _ => rfl, fun hn => ?_, hf.1, hf.2.1, hf.2.2.1, hf.2.2.2.1,
      hf.2.2.2.2.1, hf.2.2.2.2.2.1, hf.2.2.2.2.2.2.1, hf.2.2.2.2.2.2.2.2⟩
    exact absurd ⟨hsel.2, hsel.1⟩ hn
  · refine ⟨fun hy => ?_, fun _ => hf.2.2.2.2.2.2.2.1, hf.1, hf.2.1,
      hf.2.2.1, hf.2.2.2.1, hf.2.2.2.2.1, hf.2.2.2.2.2.1,
      hf.2.2.2.2.2.2.1, hf.2.2.2.2.2.2.2.2⟩
    exact absurd ⟨hy.2, hy.1⟩ hsel

/-- `select_ap_bank` preserves the cache invariant (both on the hit path
and on the write path, whether or not the write succeeds). -/
theorem select_ap_bank_inv (ora : WireOracle) (s : LowState)
    (apsel bank : Nat) (h : SelectCacheInv s) :
    SelectCacheInv (select_ap_bank ora s apsel bank).2 := by
  unfold select_ap_bank
  split_ifs with hhit
  · exact h
  · have hst := swd_write_dp_raw_state ora s DP_SELECT
      (make_dp_select_rp2350 apsel bank true)
    dsimp only
    split_ifs with herr
    · refine ⟨?_, ?_⟩
      · rw [hst.2.2.2.2.2.2.1]
        exact h.1
      · rw [hst.2.1 (fun hc => herr hc.1), hst.2.2.2.2.1, hst.2.2.2.2.2.1]
        exact h.2
    · exact ⟨rfl, hst.1 ⟨not_not.mp herr, rfl⟩⟩

/-- A raw-retry state preserves the cache invariant (only `ix` and
`last_ack` change). -/
theorem selectCacheInv_of_fields {s s' : LowState} (hf : DapFieldsEq s s')
    (h : SelectCacheInv s) : SelectCacheInv s' := by
  refine ⟨hf.2.2.2.2.1.trans h.1, ?_⟩
  rw [hf.2.2.2.2.2.2.2.1, hf.2.2.1, hf.2.2.2.1]
  exact h.2

/-- `dap_read_ap` preserves the cache invariant. -/
theorem dap_read_ap_inv (ora : WireOracle) (s : LowState) (apsel reg : Nat)
    (h : SelectCacheInv s) :
    SelectCacheInv (dap_read_ap ora s apsel reg).2 := by
  unfold dap_read_ap
  split_ifs with hconn
  · exact h
  · have hsel := select_ap_bank_inv ora s apsel ((reg >>> 4) &&& 0xF) h
    have hinv2 := selectCacheInv_of_fields
      (swd_read_ap_raw_fields ora (select_ap_bank ora s apsel
        ((reg >>> 4) &&& 0xF)).2 reg) hsel
    have hinv3 := selectCacheInv_of_fields
      (swd_read_dp_raw_fields ora (swd_read_ap_raw ora (select_ap_bank
        ora s apsel ((reg >>> 4) &&& 0xF)).2 reg).2.2 DP_RDBUFF) hinv2
    dsimp only
    split_ifs <;> first | exact hsel | exact hinv2 | exact hinv3

/-- `dap_write_ap` preserves the cache invariant. -/
theorem dap_write_ap_inv (ora : WireOracle) (s : LowState)
    (apsel reg value : Nat) (h : SelectCacheInv s) :
    SelectCacheInv (dap_write_ap ora s apsel reg value).2 := by
  unfold dap_write_ap
  split_ifs with hconn
  · exact h
  · have hsel := select_ap_bank_inv ora s apsel ((reg >>> 4) &&& 0xF) h
    dsimp only
    split_ifs
    · exact hsel
    · exact selectCacheInv_of_fields
        (swd_write_ap_raw_fields ora (select_ap_bank ora s apsel
          ((reg >>> 4) &&& 0xF)).2 reg value) hsel

/-- C1 counterexample: from a consistent state (`lowState0`, cache
`(0xA, 0)` matching the last `SELECT` value `0xAD01`), the public API
operation `dap_write_dp(DP_SELECT, ·)` writes `SELECT` without updating or
invalidating the bank-selection cache: afterwards the last value written
to `SELECT` is `0x5D31` (APSEL field 5, bank field 3) while
`current_apsel`/`current_bank` still read `0xA`/`0`.  The same stale state
arises inside `rp2350_init`: with a wire that faults on the fifth
transaction, init returns with `SELECT` last written to the bank-1 value
`0xAD11` while the cache still claims bank 0. -/
theorem C1_counterexample :
    ((dap_write_dp (ackOracle 1) lowState0 DP_SELECT
        (make_dp_select_rp2350 5 3 true)).1 = .ok ∧
      (dap_write_dp (ackOracle 1) lowState0 DP_SELECT
        (make_dp_select_rp2350 5 3 true)).2.lastSelect = some 0x5D31 ∧
      (dap_write_dp (ackOracle 1) lowState0 DP_SELECT
        (make_dp_select_rp2350 5 3 true)).2.current_apsel = 0xA ∧
      (dap_write_dp (ackOracle 1) lowState0 DP_SELECT
        (make_dp_select_rp2350 5 3 true)).2.current_bank = 0 ∧
      ((0x5D31 >>> 12) &&& 0xF : Nat) ≠ 0xA ∧
      ((0x5D31 >>> 4) &&& 0xF : Nat) ≠ 0) ∧
    ((rp2350_init faultAt4Oracle target0).2.low.lastSelect = some 0xAD11 ∧
      (rp2350_init faultAt4Oracle target0).2.low.current_bank = 0 ∧
      ((0xAD11 >>> 4) &&& 0xF : Nat) ≠ 0) := by
  refine ⟨⟨?_, ?_, ?_, ?_, ?_, ?_⟩, ⟨?_, ?_, ?_⟩⟩ <;> decide

/-- C1 (amended): the cache fields track `SELECT` for every operation that
goes through the caching path: for any sequence of `dap_read_ap` /
`dap_write_ap` operations over any wire, if the last value written to
`SELECT` is the encoding of the cached `(current_apsel, current_bank)`
pair with `ctrlsel` set, the same holds afterwards — so a matching
`(apsel, bank)` pair may safely skip the `SELECT` write.  Raw `SELECT`
writes through `dap_write_dp` (used twice by `rp2350_init`) do not
maintain this invariant. -/
theorem C1_select_cache (ora : WireOracle) (ops : List ApOp) (s : LowState)
    (h : SelectCacheInv s) : SelectCacheInv (runApOps ora ops s) := by
  induction ops generalizing s with
  | nil => exact h
  | cons op rest ih =>
    cases op with
    | readAp apsel reg =>
      exact ih _ (dap_read_ap_inv ora s apsel reg h)
    | writeAp apsel reg value =>
      exact ih _ (dap_write_ap_inv ora s apsel reg value h)

/-- C1 witness: the invariant holds through a concrete
read-AP/write-AP sequence from a consistent initial state. -/
theorem C1_select_cache_witness :
    SelectCacheInv (runApOps (ackOracle 1)
      [ApOp.writeAp 0xA 0x04 0x1234, ApOp.readAp 0 0xFC] lowState0) :=
  C1_select_cache (ackOracle 1)
    [ApOp.writeAp 0xA 0x04 0x1234, ApOp.readAp 0 0xFC] lowState0
    ⟨rfl, rfl⟩

/-! ## Target-level plumbing: DM-access traces and state preservation -/

theorem traceConnEq_refl (s : LowState) : TraceConnEq s s := ⟨rfl, rfl⟩

theorem traceConnEq_trans {a b c : LowState} (h1 : TraceConnEq a b)
    (h2 : TraceConnEq b c) : TraceConnEq a c :=
  ⟨h2.1.trans h1.1, h2.2.trans h1.2⟩

theorem traceConnEq_of_fields {s s' : LowState} (hf : DapFieldsEq s s') :
    TraceConnEq s s' :=
  ⟨hf.2.2.2.2.2.2.2.2, hf.1⟩

theorem select_ap_bank_tc (ora : WireOracle) (s : LowState)
    (apsel bank : Nat) : TraceConnEq s (select_ap_bank ora s apsel bank).2 := by
  unfold select_ap_bank
  split_ifs with hhit
  · exact traceConnEq_refl s
  · have hst := swd_write_dp_raw_state ora s DP_SELECT
      (make_dp_select_rp2350 apsel bank true)
    dsimp only
    split_ifs with herr
    · exact ⟨hst.2.2.2.2.2.2.2.2.2, hst.2.2.1⟩
    · exact ⟨hst.2.2.2.2.2.2.2.2.2, hst.2.2.1⟩

theorem dap_write_ap_tc (ora : WireOracle) (s : LowState)
    (apsel reg value : Nat) :
    TraceConnEq s (dap_write_ap ora s apsel reg value).2 := by
  unfold dap_write_ap
  split_ifs with hconn
  · exact traceConnEq_refl s
  · have h1 := select_ap_bank_tc ora s apsel ((reg >>> 4) &&& 0xF)
    have h2 := traceConnEq_of_fields (swd_write_ap_raw_fields ora
      (select_ap_bank ora s apsel ((reg >>> 4) &&& 0xF)).2 reg value)
    dsimp only
    split_ifs
    · exact h1
    · exact traceConnEq_trans h1 h2

theorem dap_read_dp_tc (ora : WireOracle) (s : LowState) (reg : Nat) :
    TraceConnEq s (dap_read_dp ora s reg).2 := by
  unfold dap_read_dp
  have h := traceConnEq_of_fields (swd_read_dp_raw_fields ora s reg)
  rcases hr : swd_read_dp_raw ora s reg with ⟨e, v, s1⟩
  rw [hr] at h
  exact h

/-- `dap_write_mem32` on a connected session with an aligned address:
the access is recorded at the end of the DM trace, and the connection
flag survives. -/
theorem dap_write_mem32_state (ora : WireOracle) (s : LowState)
    (addr value : Nat) (hc : s.connected = true) (ha : addr &&& 0x3 = 0) :
    (dap_write_mem32 ora s addr value).2.dmtrace =
      s.dmtrace ++ [DmAccess.wr addr value] ∧
    (dap_write_mem32 ora s addr value).2.connected = true := by
  unfold dap_write_mem32
  rw [if_neg (by simp [hc]), if_neg (by simp [ha])]
  set s0 : LowState := { s with dmtrace := s.dmtrace ++ [DmAccess.wr addr value] } with hs0
  have h1 := dap_write_ap_tc ora s0 AP_RISCV AP_TAR addr
  have h2 := dap_write_ap_tc ora (dap_write_ap ora s0 AP_RISCV AP_TAR addr).2
    AP_RISCV AP_DRW value
  have h3 := dap_read_dp_tc ora (dap_write_ap ora
    (dap_write_ap ora s0 AP_RISCV AP_TAR addr).2 AP_RISCV AP_DRW value).2
    DP_RDBUFF
  have h12 := traceConnEq_trans h1 h2
  have h123 := traceConnEq_trans h12 h3
  have hs0t : s0.dmtrace = s.dmtrace ++ [DmAccess.wr addr value] := rfl
  have hs0c : s0.connected = true := hc
  dsimp only
  split_ifs <;>
    first
    | exact ⟨h1.1.trans hs0t, h1.2.trans hs0c⟩
    | exact ⟨h12.1.trans hs0t, h12.2.trans hs0c⟩
    | exact ⟨h123.1.trans hs0t, h123.2.trans hs0c⟩

/-- `dap_read_mem32` on a connected session with an aligned address:
the access is recorded at the end of the DM trace, and the connection
flag survives. -/
theorem dap_read_mem32_state (ora : WireOracle) (s : LowState) (addr : Nat)
    (hc : s.connected = true) (ha : addr &&& 0x3 = 0) :
    (dap_read_mem32 ora s addr).2.dmtrace =
      s.dmtrace ++ [DmAccess.rd addr] ∧
    (dap_read_mem32 ora s addr).2.connected = true := by
  unfold dap_read_mem32
  rw [if_neg (by simp [hc]), if_neg (by simp [ha])]
  set s0 : LowState := { s with dmtrace := s.dmtrace ++ [DmAccess.rd addr] } with hs0
  have h1 := dap_write_ap_tc ora s0 AP_RISCV AP_TAR addr
  have h2 := traceConnEq_of_fields (swd_read_ap_raw_fields ora
    (dap_write_ap ora s0 AP_RISCV AP_TAR addr).2 AP_DRW)
  have h3 := traceConnEq_of_fields (swd_read_dp_raw_fields ora
    (swd_read_ap_raw ora (dap_write_ap ora s0 AP_RISCV AP_TAR addr).2
      AP_DRW).2.2 DP_RDBUFF)
  have h12 := traceConnEq_trans h1 h2
  have h123 := traceConnEq_trans h12 h3
  have hs0t : s0.dmtrace = s.dmtrace ++ [DmAccess.rd addr] := rfl
  have hs0c : s0.connected = true := hc
  dsimp only
  split_ifs <;>
    first
    | exact ⟨h1.1.trans hs0t, h1.2.trans hs0c⟩
    | exact ⟨h12.1.trans hs0t, h12.2.trans hs0c⟩
    | exact ⟨h123.1.trans hs0t, h123.2.trans hs0c⟩

/-- `dm_write32` records the access, keeps the session connected, and
never touches the `rp2350` sub-state. -/
theorem dm_write32_state (ora : WireOracle) (t : Target) (addr value : Nat)
    (hc : t.low.connected = true) (ha : addr &&& 0x3 = 0) :
    (dm_write32 ora t addr value).2.low.dmtrace =
      t.low.dmtrace ++ [DmAccess.wr addr value] ∧
    (dm_write32 ora t addr value).2.low.connected = true ∧
    (dm_write32 ora t addr value).2.rp2350 = t.rp2350 :=
  ⟨(dap_write_mem32_state ora t.low addr value hc ha).1,
    (dap_write_mem32_state ora t.low addr value hc ha).2, rfl⟩

/-- `dm_read32` records the access, keeps the session connected, and
never touches the `rp2350` sub-state. -/
theorem dm_read32_state (ora : WireOracle) (t : Target) (addr : Nat)
    (hc : t.low.connected = true) (ha : addr &&& 0x3 = 0) :
    (dm_read32 ora t addr).2.low.dmtrace =
      t.low.dmtrace ++ [DmAccess.rd addr] ∧
    (dm_read32 ora t addr).2.low.connected = true ∧
    (dm_read32 ora t addr).2.rp2350 = t.rp2350 :=
  ⟨(dap_read_mem32_state ora t.low addr hc ha).1,
    (dap_read_mem32_state ora t.low addr hc ha).2, rfl⟩

/-- C9: `rp2350_is_halted` returns the cached `halted` flag (with no state
change and no wire transaction) when `halt_state_known` holds; on an
unknown state it selects the hart via `DMCONTROL`, reads `DMSTATUS`,
records bit 9 into the hart state with `halt_state_known := true`, and
returns that bit; it returns `false` with the recorded hart state
unmodified for an uninitialised target, an invalid hart id, or any
communication error during the query. -/
theorem C9_is_halted (ora : WireOracle) (t : Target) (hart_id : Nat) :
    (t.rp2350.initialized = false → rp2350_is_halted ora t hart_id = (false, t)) ∧
    (¬hart_id < 2 → rp2350_is_halted ora t hart_id = (false, t)) ∧
    (t.rp2350.initialized = true → hart_id < 2 →
      (t.hart hart_id).halt_state_known = true →
      rp2350_is_halted ora t hart_id = ((t.hart hart_id).halted, t)) ∧
    (t.rp2350.initialized = true → hart_id < 2 →
      (t.hart hart_id).halt_state_known = false →
      ∀ e1 t1, dm_write32 ora t DM_DMCONTROL
          (make_dmcontrol hart_id false false false) = (e1, t1) →
        (e1 ≠ .ok → rp2350_is_halted ora t hart_id = (false, t1) ∧
          t1.rp2350 = t.rp2350) ∧
        (e1 = .ok → ∀ res t2, dm_read32 ora t1 DM_DMSTATUS = (res, t2) →
          (res.error ≠ .ok → rp2350_is_halted ora t hart_id = (false, t2) ∧
            t2.rp2350 = t.rp2350) ∧
          (res.error = .ok →
            rp2350_is_halted ora t hart_id =
              (decide ((res.value >>> 9) &&& 1 = 1), t2.setHart hart_id
                { t2.hart hart_id with halted := decide ((res.value >>> 9) &&& 1 = 1), halt_state_known := true }) ∧
            (t.low.connected = true →
              t2.low.dmtrace = t.low.dmtrace ++
                [DmAccess.wr DM_DMCONTROL (make_dmcontrol hart_id false false false),
                  DmAccess.rd DM_DMSTATUS])))) := by
  refine ⟨?_, ?_, ?_, ?_⟩
  · intro h
    unfold rp2350_is_halted
    rw [h, if_pos rfl]
  · intro hb
    unfold rp2350_is_halted
    cases h1 : t.rp2350.initialized
    · rw [if_pos rfl]
    · rw [if_neg (by simp),
        if_pos (by simp [validate_hart_id, RP2350_NUM_HARTS]; omega)]
  · intro hi hv hk
    unfold rp2350_is_halted
    rw [hi, if_neg (by simp),
      if_neg (by simp [validate_hart_id, RP2350_NUM_HARTS]; omega)]
    dsimp only
    rw [if_pos hk]
  · intro hi hv hk e1 t1 heq1
    have ht1 : t1 = (dm_write32 ora t DM_DMCONTROL
        (make_dmcontrol hart_id false false false)).2 := by rw [heq1]
    have he1 : e1 = (dm_write32 ora t DM_DMCONTROL
        (make_dmcontrol hart_id false false false)).1 := by rw [heq1]
    have hbody : rp2350_is_halted ora t hart_id =
        (if e1 ≠ .ok then (false, t1) else
          if (dm_read32 ora t1 DM_DMSTATUS).1.error = .ok then
            (decide (((dm_read32 ora t1 DM_DMSTATUS).1.value >>> 9) &&& 1 = 1),
              (dm_read32 ora t1 DM_DMSTATUS).2.setHart hart_id
                { (dm_read32 ora t1 DM_DMSTATUS).2.hart hart_id with halted := decide (((dm_read32 ora t1 DM_DMSTATUS).1.value >>> 9) &&& 1 = 1), halt_state_known := true })
          else (false, (dm_read32 ora t1 DM_DMSTATUS).2)) := by
      unfold rp2350_is_halted
      rw [hi, if_neg (by simp),
        if_neg (by simp [validate_hart_id, RP2350_NUM_HARTS]; omega)]
      dsimp only
      rw [if_neg (by simp [hk]), ← he1, ← ht1]
    refine ⟨?_, ?_⟩
    · intro hne
      rw [hbody, if_pos hne]
      refine ⟨rfl, ?_⟩
      rw [ht1]
      rfl
    · intro hok res t2 heq2
      have ht2 : t2 = (dm_read32 ora t1 DM_DMSTATUS).2 := by rw [heq2]
      have hres : res = (dm_read32 ora t1 DM_DMSTATUS).1 := by rw [heq2]
      refine ⟨?_, ?_⟩
      · intro hrne
        rw [hbody, if_neg (by simp [hok]),
          if_neg (by rw [← hres]; exact hrne)]
        refine ⟨by rw [ht2], ?_⟩
        rw [ht2, ht1]
        rfl
      · intro hrok
        rw [hbody, if_neg (by simp [hok]), if_pos (by rw [← hres]; exact hrok)]
        refine ⟨by rw [← hres, ← ht2], ?_⟩
        intro hconn
        have hw := dm_write32_state ora t DM_DMCONTROL
          (make_dmcontrol hart_id false false false) hconn (by decide)
        have hr := dm_read32_state ora t1 DM_DMSTATUS
          (by rw [ht1]; exact hw.2.1) (by decide)
        rw [ht2, hr.1, ht1, hw.1]
        simp

/-- C9 witness: on a target whose hart 0 is known halted, `is_halted`
answers from the cache. -/
theorem C9_is_halted_witness :
    rp2350_is_halted (ackOracle 1) targetInit 0 =
      ((targetInit.hart 0).halted, targetInit) :=
  (C9_is_halted (ackOracle 1) targetInit 0).2.2.1 rfl (by decide) rfl

/-! ## C3 — NotHalted gating of register paths; SBA path is independent -/

/-- C3: on an initialised target with a valid hart id whose recorded state
is not halted, each of `rp2350_read_reg`, `rp2350_write_reg`,
`rp2350_read_csr`, `rp2350_write_csr` — and hence the PC accessors, which
alias CSR 0x7b1 — returns the `NotHalted` error with the session state
completely unchanged (in particular no wire transaction is consumed and
no MEM-AP access is recorded), while `rp2350_read_mem32` and
`rp2350_write_mem32` behave identically on any two targets that differ
only in their hart table: the SBA memory path never reads the halt
state. -/
theorem C3_not_halted (ora : WireOracle) (t : Target)
    (hart_id reg_num csr_addr value addr : Nat) (hs : List HartState)
    (hi : t.rp2350.initialized = true) (hv : hart_id < 2)
    (hh : (t.hart hart_id).halted = false) :
    rp2350_read_reg ora t hart_id reg_num =
      ({ error := .notHalted, value := 0 }, t) ∧
    rp2350_write_reg ora t hart_id reg_num value = (.notHalted, t) ∧
    rp2350_read_csr ora t hart_id csr_addr =
      ({ error := .notHalted, value := 0 }, t) ∧
    rp2350_write_csr ora t hart_id csr_addr value = (.notHalted, t) ∧
    rp2350_read_pc ora t hart_id = ({ error := .notHalted, value := 0 }, t) ∧
    rp2350_write_pc ora t hart_id value = (.notHalted, t) ∧
    rp2350_read_mem32 ora (t.withHarts hs) addr =
      ((rp2350_read_mem32 ora t addr).1,
        (rp2350_read_mem32 ora t addr).2.withHarts hs) ∧
    rp2350_write_mem32 ora (t.withHarts hs) addr value =
      ((rp2350_write_mem32 ora t addr value).1,
        (rp2350_write_mem32 ora t addr value).2.withHarts hs) := by
  have hvv : ¬validate_hart_id hart_id = false := by
    simp [validate_hart_id, RP2350_NUM_HARTS]
    omega
  have hcsr : ∀ ca, rp2350_read_csr ora t hart_id ca =
      ({ error := .notHalted, value := 0 }, t) := by
    intro ca
    unfold rp2350_read_csr
    rw [hi, if_neg (by simp), if_neg hvv]
    dsimp only
    rw [if_pos hh]
  have hcsw : ∀ ca v, rp2350_write_csr ora t hart_id ca v =
      (.notHalted, t) := by
    intro ca v
    unfold rp2350_write_csr
    rw [hi, if_neg (by simp), if_neg hvv]
    dsimp only
    rw [if_pos hh]
  refine ⟨?_, ?_, hcsr csr_addr, hcsw csr_addr value, hcsr 0x7b1,
    hcsw 0x7b1 value, ?_, ?_⟩
  · unfold rp2350_read_reg
    rw [hi, if_neg (by simp), if_neg hvv]
    dsimp only
    rw [if_pos hh]
  · unfold rp2350_write_reg
    rw [hi, if_neg (by simp), if_neg hvv]
    dsimp only
    rw [if_pos hh]
  · unfold rp2350_read_mem32
    dsimp only [Target.withHarts, dm_write32, dm_read32]
    split_ifs <;> rfl
  · unfold rp2350_write_mem32
    dsimp only [Target.withHarts, dm_write32, dm_read32]
    split_ifs <;> rfl

/-- C3 witness: hart 1 of `targetInit` is recorded running; its register
read is rejected with `NotHalted` while the hart-table change leaves the
memory path's behaviour untouched. -/
theorem C3_not_halted_witness :
    rp2350_read_reg (ackOracle 1) targetInit 1 5 =
      ({ error := .notHalted, value := 0 }, targetInit) ∧
    rp2350_read_mem32 (ackOracle 1)
        (targetInit.withHarts [hartRunning, hartRunning]) 0x20000000 =
      ((rp2350_read_mem32 (ackOracle 1) targetInit 0x20000000).1,
        (rp2350_read_mem32 (ackOracle 1) targetInit
          0x20000000).2.withHarts [hartRunning, hartRunning]) :=
  ⟨(C3_not_halted (ackOracle 1) targetInit 1 5 0 0 0x20000000
      [hartRunning, hartRunning] rfl (by decide) (by decide)).1,
    (C3_not_halted (ackOracle 1) targetInit 1 5 0 0 0x20000000
      [hartRunning, hartRunning] rfl (by decide) (by decide)).2.2.2.2.2.2.1⟩

/-! ## C4 — `rp2350_halt` -/

/-- Reading back a hart slot just written (the hart table has fixed
length 2, so valid ids are always in range). -/
theorem Target.hart_setHart (t : Target) (i : Nat) (h : HartState)
    (hlt : i < t.rp2350.harts.length) : (t.setHart i h).hart i = h := by
  unfold Target.setHart Target.hart
  dsimp only
  rw [List.getD_eq_getElem?_getD, List.getElem?_set_self (by simpa using hlt)]
  rfl

theorem Target.setHart_low (t : Target) (i : Nat) (h : HartState) :
    (t.setHart i h).low = t.low := rfl

/-- No layer below the DM driver ever produces the `AlreadyHalted`
error. -/
theorem swd_ack_to_error_ne_already (ack : Nat) :
    swd_ack_to_error ack ≠ .alreadyHalted := by
  unfold swd_ack_to_error
  split_ifs <;> simp

theorem swd_io_raw_ne_already (ora : WireOracle) (s : LowState) (data : Nat)
    (write : Bool) : (swd_io_raw ora s data write).1.err ≠ .alreadyHalted := by
  unfold swd_io_raw
  dsimp only
  split_ifs <;> first | exact swd_ack_to_error_ne_already _ | simp

theorem swd_retry_ne_already (ora : WireOracle) (data : Nat) (write : Bool) :
    ∀ (n : Nat) (s : LowState),
      (swd_retry ora data write n s).1 ≠ .alreadyHalted := by
  intro n
  induction n with
  | zero => intro s; simp [swd_retry]
  | succ m ih =>
    intro s
    unfold swd_retry
    rcases hio : swd_io_raw ora s data write with ⟨o, s1⟩
    have ho := swd_io_raw_ne_already ora s data write
    rw [hio] at ho
    dsimp only
    split_ifs
    · exact ih s1
    · exact ho

theorem select_ap_bank_ne_already (ora : WireOracle) (s : LowState)
    (apsel bank : Nat) : (select_ap_bank ora s apsel bank).1 ≠ .alreadyHalted := by
  unfold select_ap_bank
  split_ifs with hhit
  · simp
  · unfold swd_write_dp_raw
    dsimp only
    split_ifs <;>
      first
      | exact swd_retry_ne_already ora (make_dp_select_rp2350 apsel bank true)
          true s.retry_count s
      | simp

theorem dap_write_ap_ne_already (ora : WireOracle) (s : LowState)
    (apsel reg value : Nat) :
    (dap_write_ap ora s apsel reg value).1 ≠ .alreadyHalted := by
  unfold dap_write_ap
  have h1 := select_ap_bank_ne_already ora s apsel ((reg >>> 4) &&& 0xF)
  have h2 := swd_retry_ne_already ora value true
    (select_ap_bank ora s apsel ((reg >>> 4) &&& 0xF)).2.retry_count
    (select_ap_bank ora s apsel ((reg >>> 4) &&& 0xF)).2
  split_ifs with hconn
  · simp
  · dsimp only
    split_ifs
    · exact h1
    · rw [swd_write_ap_raw_eta]
      exact h2

theorem dap_read_dp_ne_already (ora : WireOracle) (s : LowState) (reg : Nat) :
    (dap_read_dp ora s reg).1.error ≠ .alreadyHalted := by
  unfold dap_read_dp
  have h := swd_retry_ne_already ora 0 false s.retry_count s
  rcases hr : swd_read_dp_raw ora s reg with ⟨e, v, s1⟩
  have he : e = (swd_read_dp_raw ora s reg).1 := by rw [hr]
  rw [he]
  exact h

theorem dap_write_mem32_ne_already (ora : WireOracle) (s : LowState)
    (addr value : Nat) :
    (dap_write_mem32 ora s addr value).1 ≠ .alreadyHalted := by
  unfold dap_write_mem32
  split_ifs with h1 h2
  · simp
  · simp
  · set s0 : LowState := { s with dmtrace := s.dmtrace ++ [DmAccess.wr addr value] } with hs0
    have ha1 := dap_write_ap_ne_already ora s0 AP_RISCV AP_TAR addr
    have ha2 := dap_write_ap_ne_already ora
      (dap_write_ap ora s0 AP_RISCV AP_TAR addr).2 AP_RISCV AP_DRW value
    have ha3 := dap_read_dp_ne_already ora (dap_write_ap ora
      (dap_write_ap ora s0 AP_RISCV AP_TAR addr).2 AP_RISCV AP_DRW value).2
      DP_RDBUFF
    dsimp only
    split_ifs <;> first | exact ha1 | exact ha2 | exact ha3 | simp

theorem dap_read_mem32_ne_already (ora : WireOracle) (s : LowState)
    (addr : Nat) :
    (dap_read_mem32 ora s addr).1.error ≠ .alreadyHalted := by
  unfold dap_read_mem32
  split_ifs with h1 h2
  · simp
  · simp
  · set s0 : LowState := { s with dmtrace := s.dmtrace ++ [DmAccess.rd addr] } with hs0
    have ha1 := dap_write_ap_ne_already ora s0 AP_RISCV AP_TAR addr
    have ha2 := swd_retry_ne_already ora 0 false
      (dap_write_ap ora s0 AP_RISCV AP_TAR addr).2.retry_count
      (dap_write_ap ora s0 AP_RISCV AP_TAR addr).2
    have ha3 := swd_retry_ne_already ora 0 false
      (swd_read_ap_raw ora (dap_write_ap ora s0 AP_RISCV AP_TAR addr).2
        AP_DRW).2.2.retry_count
      (swd_read_ap_raw ora (dap_write_ap ora s0 AP_RISCV AP_TAR addr).2
        AP_DRW).2.2
    dsimp only
    split_ifs <;> first | exact ha1 | exact ha2 | exact ha3 | simp

theorem dm_read32_ne_already (ora : WireOracle) (t : Target) (addr : Nat) :
    (dm_read32 ora t addr).1.error ≠ .alreadyHalted :=
  dap_read_mem32_ne_already ora t.low addr

theorem dm_write32_ne_already (ora : WireOracle) (t : Target)
    (addr value : Nat) : (dm_write32 ora t addr value).1 ≠ .alreadyHalted :=
  dap_write_mem32_ne_already ora t.low addr value

/-- Each iteration of the `DMSTATUS` poll reads `DMSTATUS` exactly once,
so a budget of `n` iterations records at most `n` reads; the connection
flag and the hart-table length survive. -/
theorem poll_dmstatus_loop_state (ora : WireOracle) (hart_id : Nat)
    (wfh : Bool) :
    ∀ (n : Nat) (t : Target), t.low.connected = true →
      ∃ k, k ≤ n ∧
        (poll_dmstatus_loop ora hart_id wfh n t).2.low.dmtrace =
          t.low.dmtrace ++ List.replicate k (DmAccess.rd DM_DMSTATUS) ∧
        (poll_dmstatus_loop ora hart_id wfh n t).2.low.connected = true ∧
        (poll_dmstatus_loop ora hart_id wfh n t).2.rp2350.harts.length =
          t.rp2350.harts.length := by
  intro n
  induction n with
  | zero =>
    intro t hc
    exact ⟨0, by omega, by simp [poll_dmstatus_loop], hc, rfl⟩
  | succ m ih =>
    intro t hc
    have hst := dm_read32_state ora t DM_DMSTATUS hc (by decide)
    unfold poll_dmstatus_loop
    dsimp only
    split_ifs with h1 h2 h3
    · exact ⟨1, by omega, by rw [hst.1]; simp, hst.2.1, by rw [hst.2.2]⟩
    · refine ⟨1, by omega, ?_, ?_, ?_⟩
      · rw [Target.setHart_low, hst.1]
        simp
      · rw [Target.setHart_low, hst.2.1]
      · show ((dm_read32 ora t DM_DMSTATUS).2.rp2350.harts.set hart_id _).length =
          t.rp2350.harts.length
        rw [List.length_set, hst.2.2]
    · refine ⟨1, by omega, ?_, ?_, ?_⟩
      · rw [Target.setHart_low, hst.1]
        simp
      · rw [Target.setHart_low, hst.2.1]
      · show ((dm_read32 ora t DM_DMSTATUS).2.rp2350.harts.set hart_id _).length =
          t.rp2350.harts.length
        rw [List.length_set, hst.2.2]
    · obtain ⟨k, hk, htr, hcn, hln⟩ := ih (dm_read32 ora t DM_DMSTATUS).2 hst.2.1
      refine ⟨k + 1, by omega, ?_, hcn, by rw [hln, hst.2.2]⟩
      rw [htr, hst.1]
      simp [List.replicate_succ]

theorem poll_dmstatus_loop_ne_already (ora : WireOracle) (hart_id : Nat)
    (wfh : Bool) :
    ∀ (n : Nat) (t : Target),
      (poll_dmstatus_loop ora hart_id wfh n t).1 ≠ .alreadyHalted := by
  intro n
  induction n with
  | zero => intro t; simp [poll_dmstatus_loop]
  | succ m ih =>
    intro t
    have hne := dm_read32_ne_already ora t DM_DMSTATUS
    unfold poll_dmstatus_loop
    dsimp only
    split_ifs <;> first | exact hne | exact ih _ | simp

theorem poll_dmstatus_halted_state (ora : WireOracle) (t : Target)
    (hart_id : Nat) (wfh : Bool) (hc : t.low.connected = true) :
    ∃ k, k ≤ 10 ∧
      (poll_dmstatus_halted ora t hart_id wfh).2.low.dmtrace =
        t.low.dmtrace ++ List.replicate k (DmAccess.rd DM_DMSTATUS) ∧
      (poll_dmstatus_halted ora t hart_id wfh).2.low.connected = true ∧
      (poll_dmstatus_halted ora t hart_id wfh).2.rp2350.harts.length =
        t.rp2350.harts.length :=
  poll_dmstatus_loop_state ora hart_id wfh 10 t hc

theorem poll_dmstatus_halted_ne_already (ora : WireOracle) (t : Target)
    (hart_id : Nat) (wfh : Bool) :
    (poll_dmstatus_halted ora t hart_id wfh).1 ≠ .alreadyHalted :=
  poll_dmstatus_loop_ne_already ora hart_id wfh 10 t

/-- Past its guards and fast path, `rp2350_halt` is the `DMCONTROL` write
followed by the `DMSTATUS` poll and the bookkeeping update. -/
theorem rp2350_halt_body (ora : WireOracle) (t : Target) (hart_id : Nat)
    (hi : t.rp2350.initialized = true) (hv : validate_hart_id hart_id = true)
    (hfast : ¬((t.hart hart_id).halt_state_known = true ∧
      (t.hart hart_id).halted = true)) :
    rp2350_halt ora t hart_id =
      (if (dm_write32 ora t DM_DMCONTROL
            (make_dmcontrol hart_id true false false)).1 ≠ .ok then
        dm_write32 ora t DM_DMCONTROL (make_dmcontrol hart_id true false false)
      else if (poll_dmstatus_halted ora
            (dm_write32 ora t DM_DMCONTROL
              (make_dmcontrol hart_id true false false)).2
            hart_id true).1 ≠ .ok then
        poll_dmstatus_halted ora
          (dm_write32 ora t DM_DMCONTROL
            (make_dmcontrol hart_id true false false)).2 hart_id true
      else
        (.ok,
          (poll_dmstatus_halted ora
            (dm_write32 ora t DM_DMCONTROL
              (make_dmcontrol hart_id true false false)).2
            hart_id true).2.setHart hart_id
            { (poll_dmstatus_halted ora
                (dm_write32 ora t DM_DMCONTROL
                  (make_dmcontrol hart_id true false false)).2
                hart_id true).2.hart hart_id with
              halted := true, halt_state_known := true,
              cache_valid := false })) := by
  unfold rp2350_halt
  rw [hi, if_neg (by simp), hv, if_neg (by simp)]
  dsimp only
  rw [if_neg hfast]

/-- C4: `rp2350_halt` returns `AlreadyHalted` exactly when the hart's halt
state is known and halted; otherwise it writes `DMCONTROL` with `haltreq`
set and the hart selected, polls `DMSTATUS` at most 10 times, on success
establishes `halted`, `halt_state_known` and `¬cache_valid` for that hart,
and if the poll budget is exhausted the `Timeout` is propagated. -/
theorem C4_halt (ora : WireOracle) (t : Target) (hart_id : Nat)
    (hi : t.rp2350.initialized = true) (hv : validate_hart_id hart_id = true)
    (hc : t.low.connected = true) (hlen : t.rp2350.harts.length = 2) :
    ((t.hart hart_id).halt_state_known = true ∧
        (t.hart hart_id).halted = true →
      rp2350_halt ora t hart_id = (.alreadyHalted, t)) ∧
    (¬((t.hart hart_id).halt_state_known = true ∧
        (t.hart hart_id).halted = true) →
      (rp2350_halt ora t hart_id).1 ≠ .alreadyHalted ∧
      (∃ k, k ≤ 10 ∧
        (rp2350_halt ora t hart_id).2.low.dmtrace =
          t.low.dmtrace ++
            DmAccess.wr DM_DMCONTROL (make_dmcontrol hart_id true false false) ::
              List.replicate k (DmAccess.rd DM_DMSTATUS)) ∧
      ((rp2350_halt ora t hart_id).1 = .ok →
        ((rp2350_halt ora t hart_id).2.hart hart_id).halted = true ∧
        ((rp2350_halt ora t hart_id).2.hart hart_id).halt_state_known = true ∧
        ((rp2350_halt ora t hart_id).2.hart hart_id).cache_valid = false) ∧
      ((dm_write32 ora t DM_DMCONTROL
          (make_dmcontrol hart_id true false false)).1 = .ok →
        (poll_dmstatus_halted ora
          (dm_write32 ora t DM_DMCONTROL
            (make_dmcontrol hart_id true false false)).2
          hart_id true).1 = .timeout →
        (rp2350_halt ora t hart_id).1 = .timeout)) := by
  constructor
  · intro hfast
    unfold rp2350_halt
    rw [hi, if_neg (by simp), hv, if_neg (by simp)]
    dsimp only
    rw [if_pos hfast]
  · intro hfast
    have hb := rp2350_halt_body ora t hart_id hi hv hfast
    have hwst := dm_write32_state ora t DM_DMCONTROL
      (make_dmcontrol hart_id true false false) hc (by decide)
    obtain ⟨k, hk, htr, hcn, hln⟩ := poll_dmstatus_halted_state ora
      (dm_write32 ora t DM_DMCONTROL
        (make_dmcontrol hart_id true false false)).2 hart_id true hwst.2.1
    have hvlt : hart_id < 2 := by
      have := of_decide_eq_true hv
      simpa [RP2350_NUM_HARTS] using this
    refine ⟨?_, ?_, ?_, ?_⟩
    · rw [hb]
      split_ifs
      · exact dm_write32_ne_already ora t DM_DMCONTROL
          (make_dmcontrol hart_id true false false)
      · exact poll_dmstatus_halted_ne_already ora
          (dm_write32 ora t DM_DMCONTROL
            (make_dmcontrol hart_id true false false)).2 hart_id true
      · simp
    · rw [hb]
      split_ifs
      · exact ⟨0, by omega, by rw [hwst.1]; simp⟩
      · exact ⟨k, hk, by rw [htr, hwst.1]; simp⟩
      · exact ⟨k, hk, by rw [Target.setHart_low, htr, hwst.1]; simp⟩
    · intro hok
      rw [hb] at hok ⊢
      split_ifs at hok ⊢ with h1 h2
      · exact absurd hok h1
      · exact absurd hok h2
      · dsimp only
        rw [Target.hart_setHart _ _ _ (by rw [hln, hwst.2.2, hlen]; omega)]
        exact ⟨rfl, rfl, rfl⟩
    · intro hwok hpt
      rw [hb]
      rw [if_neg (by simp [hwok]), if_pos (by simp [hpt])]
      exact hpt

theorem C4_halt_witness :
    rp2350_halt (ackOracle 1) targetInit 0 = (.alreadyHalted, targetInit) :=
  (C4_halt (ackOracle 1) targetInit 0 rfl rfl rfl rfl).1 ⟨rfl, rfl⟩

/-! ## C10 — `rp2350_execute_progbuf` guards and transaction shape -/

/-- On a fully acknowledged run, `write_progbuf_list` records exactly one
`PROGBUF` write per instruction word, at consecutive word slots starting
at slot `i`, and touches neither the connection flag nor the DM state. -/
theorem write_progbuf_list_ok (ora : WireOracle) :
    ∀ (ws : List Nat) (i : Nat) (t : Target), t.low.connected = true →
      (write_progbuf_list ora ws i t).1 = .ok →
      (write_progbuf_list ora ws i t).2.low.dmtrace =
        t.low.dmtrace ++ (List.range ws.length).map
          (fun j => DmAccess.wr (DM_PROGBUF0 + (i + j) * 4) (ws.getD j 0)) ∧
      (write_progbuf_list ora ws i t).2.low.connected = true ∧
      (write_progbuf_list ora ws i t).2.rp2350 = t.rp2350 := by
  intro ws
  induction ws with
  | nil =>
    intro i t hc _
    exact ⟨by simp [write_progbuf_list], hc, rfl⟩
  | cons w rest ih =>
    intro i t hc hok
    have halign : (DM_PROGBUF0 + i * 4) &&& 0x3 = 0 := by
      rw [nat_and_three]
      unfold DM_PROGBUF0
      omega
    have hst := dm_write32_state ora t (DM_PROGBUF0 + i * 4) w hc halign
    unfold write_progbuf_list at hok ⊢
    rcases hwr : dm_write32 ora t (DM_PROGBUF0 + i * 4) w with ⟨e1, t1⟩
    rw [hwr] at hok hst
    dsimp only at hok hst ⊢
    by_cases he : e1 = .ok
    · rw [if_neg (by simp [he])] at hok ⊢
      obtain ⟨htr, hcn, hrp⟩ := ih (i + 1) t1 hst.2.1 hok
      refine ⟨?_, hcn, by rw [hrp, hst.2.2]⟩
      rw [htr, hst.1, List.append_assoc]
      congr 1
      rw [List.length_cons, List.range_succ_eq_map, List.map_cons,
        List.map_map, List.singleton_append]
      congr 1
      refine List.map_congr_left fun j _ => ?_
      simp only [Function.comp_apply, Nat.succ_eq_add_one,
        List.getD_cons_succ]
      rw [show i + 1 + j = i + (j + 1) from by omega]
    · rw [if_pos (by simp [he])] at hok
      exact absurd hok he

/-- A successful `wait_abstract_loop` run performed between 1 and `n`
`ABSTRACTCS` reads and nothing else. -/
theorem wait_abstract_loop_ok (ora : WireOracle) :
    ∀ (n : Nat) (t : Target), t.low.connected = true →
      (wait_abstract_loop ora n t).1 = .ok →
      ∃ k, 1 ≤ k ∧ k ≤ n ∧
        (wait_abstract_loop ora n t).2.low.dmtrace =
          t.low.dmtrace ++ List.replicate k (DmAccess.rd DM_ABSTRACTCS) ∧
        (wait_abstract_loop ora n t).2.low.connected = true ∧
        (wait_abstract_loop ora n t).2.rp2350 = t.rp2350 := by
  intro n
  induction n with
  | zero =>
    intro t hc hok
    simp [wait_abstract_loop] at hok
  | succ m ih =>
    intro t hc hok
    have hst := dm_read32_state ora t DM_ABSTRACTCS hc (by decide)
    unfold wait_abstract_loop at hok ⊢
    rcases hrd : dm_read32 ora t DM_ABSTRACTCS with ⟨res, t1⟩
    rw [hrd] at hok hst
    dsimp only at hok hst ⊢
    split_ifs at hok ⊢ with h1 h2 h3
    · exact absurd hok h1
    · exact ⟨1, by omega, by omega, by rw [hst.1]; simp, hst.2.1, hst.2.2⟩
    · obtain ⟨k, hk1, hkm, htr, hcn, hrp⟩ := ih t1 hst.2.1 hok
      exact ⟨k + 1, by omega, by omega,
        by rw [htr, hst.1]; simp [List.replicate_succ], hcn,
        by rw [hrp, hst.2.2]⟩

/-- C10: `rp2350_execute_progbuf` returns `NotInitialized` on an
uninitialised target and `InvalidParam` on an invalid hart id, a missing
instruction array, `count = 0` or `count > 16`, in every such case leaving
the whole target state (hence the DM transaction trace) unchanged; on a
valid, fully acknowledged run it performs exactly the `DMCONTROL` hart
select, the `count` consecutive `PROGBUF` writes, the single abstract
command with only the `postexec` bit (bit 18) set, and between 1 and 100
`ABSTRACTCS` polls. -/
theorem C10_execute_progbuf (ora : WireOracle) (t : Target) (hart_id : Nat)
    (instructions : Option (List Nat)) (count : Nat) :
    (t.rp2350.initialized = false →
      rp2350_execute_progbuf ora t hart_id instructions count =
        (.notInitialized, t)) ∧
    (t.rp2350.initialized = true → validate_hart_id hart_id = false →
      rp2350_execute_progbuf ora t hart_id instructions count =
        (.invalidParam, t)) ∧
    (t.rp2350.initialized = true → validate_hart_id hart_id = true →
      (instructions = none ∨ count = 0 ∨ count > 16) →
      rp2350_execute_progbuf ora t hart_id instructions count =
        (.invalidParam, t)) ∧
    (∀ insts, t.rp2350.initialized = true →
      validate_hart_id hart_id = true → instructions = some insts →
      1 ≤ count → count ≤ 16 → t.low.connected = true →
      (rp2350_execute_progbuf ora t hart_id instructions count).1 = .ok →
      ∃ k, 1 ≤ k ∧ k ≤ 100 ∧
        (rp2350_execute_progbuf ora t hart_id instructions
            count).2.low.dmtrace =
          t.low.dmtrace ++
            DmAccess.wr DM_DMCONTROL
                (make_dmcontrol hart_id false false false) ::
              ((List.range count).map
                  (fun j => DmAccess.wr (DM_PROGBUF0 + j * 4)
                    (insts.getD j 0)) ++
                DmAccess.wr DM_COMMAND (1 <<< 18) ::
                  List.replicate k (DmAccess.rd DM_ABSTRACTCS))) := by
  refine ⟨?_, ?_, ?_, ?_⟩
  · intro h0
    unfold rp2350_execute_progbuf
    rw [if_pos h0]
  · intro hi hv
    unfold rp2350_execute_progbuf
    rw [if_neg (by simp [hi]), if_pos hv]
  · intro hi hv hbad
    unfold rp2350_execute_progbuf execute_progbuf_simple
    rw [if_neg (by simp [hi]), if_neg (by simp [hv])]
    rcases instructions with _ | insts
    · rfl
    · rcases hbad with h | h | h
      · exact absurd h (by simp)
      · dsimp only
        rw [if_pos (Or.inl h)]
      · dsimp only
        rw [if_pos (Or.inr h)]
  · intro insts hi hv hins h1 h16 hc hok
    subst hins
    unfold rp2350_execute_progbuf execute_progbuf_simple at hok ⊢
    rw [if_neg (by simp [hi]), if_neg (by simp [hv])] at hok ⊢
    dsimp only at hok ⊢
    rw [if_neg (show ¬(count = 0 ∨ count > 16) by omega)] at hok ⊢
    have hst1 := dm_write32_state ora t DM_DMCONTROL
      (make_dmcontrol hart_id false false false) hc (by decide)
    rcases hw1 : dm_write32 ora t DM_DMCONTROL
      (make_dmcontrol hart_id false false false) with ⟨e1, t1⟩
    rw [hw1] at hok hst1
    dsimp only at hok hst1 ⊢
    by_cases he1 : e1 = .ok
    · rw [if_neg (by simp [he1])] at hok ⊢
      rcases hw2 : write_progbuf_list ora
        ((List.range count).map fun i => insts.getD i 0) 0 t1 with ⟨e2, t2⟩
      rw [hw2] at hok
      dsimp only at hok ⊢
      by_cases he2 : e2 = .ok
      · have hst2 := write_progbuf_list_ok ora
          ((List.range count).map fun i => insts.getD i 0) 0 t1 hst1.2.1
          (by rw [hw2]; exact he2)
        rw [hw2] at hst2
        dsimp only at hst2
        rw [if_neg (by simp [he2])] at hok ⊢
        have hst3 := dm_write32_state ora t2 DM_COMMAND (1 <<< 18)
          hst2.2.1 (by decide)
        rcases hw3 : dm_write32 ora t2 DM_COMMAND (1 <<< 18) with ⟨e3, t3⟩
        rw [hw3] at hok hst3
        dsimp only at hok hst3 ⊢
        by_cases he3 : e3 = .ok
        · rw [if_neg (by simp [he3])] at hok ⊢
          obtain ⟨k, hk1, hk100, htr, hcn, hrp⟩ :=
            wait_abstract_loop_ok ora 100 t3 hst3.2.1 hok
          refine ⟨k, hk1, hk100, ?_⟩
          show (wait_abstract_loop ora 100 t3).2.low.dmtrace = _
          rw [htr, hst3.1, hst2.1, hst1.1]
          have hmap : (List.range ((List.range count).map
              fun i => insts.getD i 0).length).map
              (fun j => DmAccess.wr (DM_PROGBUF0 + (0 + j) * 4)
                (((List.range count).map fun i => insts.getD i 0).getD j 0)) =
              (List.range count).map
                (fun j => DmAccess.wr (DM_PROGBUF0 + j * 4)
                  (insts.getD j 0)) := by
            rw [List.length_map, List.length_range]
            refine List.map_congr_left fun j hj => ?_
            have hjc : j < count := List.mem_range.mp hj
            rw [List.getD_eq_getElem?_getD, List.getElem?_map,
              List.getElem?_range hjc]
            simp
          rw [hmap]
          simp [List.append_assoc]
        · rw [if_pos (by simp [he3])] at hok
          exact absurd hok he3
      · rw [if_pos (by simp [he2])] at hok
        exact absurd hok he2
    · rw [if_pos (by simp [he1])] at hok
      exact absurd hok he1

theorem C10_execute_progbuf_witness :
    rp2350_execute_progbuf (ackOracle 1) target0 0 none 0 =
      (.notInitialized, target0) :=
  (C10_execute_progbuf (ackOracle 1) target0 0 none 0).1 rfl

/-! ## C7 — `rp2350_trace` return shape and unbounded looping at max 0 -/

/-- A pre-failure outcome of the loop body carries the failing call's
non-`Ok` error. -/
theorem trace_iter_failPre_ne_ok (ora : WireOracle) (cb : TraceRecord → Bool)
    (cap : Bool) (hart_id : Nat) (t : Target) (e : SwdError) (t' : Target) :
    trace_iter ora cb cap hart_id t = .failPre e t' → e ≠ .ok := by
  intro he
  unfold trace_iter at he
  dsimp only at he
  split_ifs at he <;> cases he <;> assumption

/-- Whenever the trace loop returns, the value is either the (non-negative)
number of instructions traced — at least the count it started from — or,
only when nothing at all was traced, the negation of a pre-failure's
non-`Ok` error code. -/
theorem trace_loop_shape (ora : WireOracle) (cb : TraceRecord → Bool)
    (cap : Bool) (hart_id max_instructions : Nat) :
    ∀ (fuel : Nat) (t : Target) (count : Nat) (r : Int),
      trace_loop ora cb cap hart_id max_instructions fuel t count = some r →
      (∃ c : Nat, r = (c : Int) ∧ count ≤ c) ∨
      (count = 0 ∧ ∃ e : SwdError, e ≠ .ok ∧ r = -(e.code : Int)) := by
  intro fuel
  induction fuel with
  | zero =>
    intro t count r h
    simp [trace_loop] at h
  | succ m ih =>
    intro t count r h
    unfold trace_loop at h
    by_cases hm : max_instructions = 0 ∨ count < max_instructions
    · rw [if_pos hm] at h
      rcases hit : trace_iter ora cb cap hart_id t with ⟨e, t'⟩ | ⟨t'⟩ |
        ⟨e, t'⟩ | t1
      · rw [hit] at h
        dsimp only at h
        rw [Option.some_inj] at h
        by_cases hcnt : count > 0
        · rw [if_pos hcnt] at h
          exact Or.inl ⟨count, h.symm, Nat.le_refl count⟩
        · rw [if_neg hcnt] at h
          exact Or.inr ⟨by omega, e,
            trace_iter_failPre_ne_ok ora cb cap hart_id t e t' hit, h.symm⟩
      · rw [hit] at h
        dsimp only at h
        rw [Option.some_inj] at h
        exact Or.inl ⟨count + 1, h.symm, by omega⟩
      · rw [hit] at h
        dsimp only at h
        rw [Option.some_inj, if_pos (by omega)] at h
        exact Or.inl ⟨count + 1, h.symm, by omega⟩
      · rw [hit] at h
        dsimp only at h
        rcases ih t1 (count + 1) r h with ⟨c, hc, hcc⟩ | ⟨hz, he⟩
        · exact Or.inl ⟨c, hc, by omega⟩
        · omega
    · rw [if_neg hm] at h
      rw [Option.some_inj] at h
      exact Or.inl ⟨count, h.symm, Nat.le_refl count⟩

theorem traceOra_congr (a b : Nat) (h : a % 219 = b % 219) :
    traceOra a = traceOra b := by
  unfold traceOra
  rw [h]

/-- Runs of one wire transaction from `LowSim`-related states answer
identically and stay related. -/
theorem swd_io_raw_sim (s s' : LowState) (d : Nat) (w : Bool)
    (h : LowSim s s') :
    (swd_io_raw traceOra s' d w).1 = (swd_io_raw traceOra s d w).1 ∧
    LowSim (swd_io_raw traceOra s d w).2 (swd_io_raw traceOra s' d w).2 := by
  obtain ⟨hc, hp, ha, hb, hct, hsc, hpw, hrc, hla, hls, hix⟩ := h
  unfold swd_io_raw
  rw [hp, traceOra_congr s'.ix s.ix hix]
  dsimp only
  split_ifs
  all_goals refine ⟨rfl, ?_, ?_, ?_, ?_, ?_, ?_, ?_, ?_, ?_, ?_, ?_⟩
  all_goals first | assumption | rfl | (dsimp only; omega)

theorem swd_retry_sim (d : Nat) (w : Bool) :
    ∀ (n : Nat) (s s' : LowState), LowSim s s' →
      (swd_retry traceOra d w n s').1 = (swd_retry traceOra d w n s).1 ∧
      (swd_retry traceOra d w n s').2.1 = (swd_retry traceOra d w n s).2.1 ∧
      LowSim (swd_retry traceOra d w n s).2.2
        (swd_retry traceOra d w n s').2.2 := by
  intro n
  induction n with
  | zero => exact fun s s' h => ⟨rfl, rfl, h⟩
  | succ m ih =>
    intro s s' h
    have hio := swd_io_raw_sim s s' d w h
    unfold swd_retry
    rcases h1 : swd_io_raw traceOra s d w with ⟨o, s1⟩
    rcases h2 : swd_io_raw traceOra s' d w with ⟨o', s1'⟩
    rw [h1, h2] at hio
    dsimp only at hio ⊢
    rw [hio.1]
    split_ifs with hw
    · exact ih s1 s1' hio.2
    · exact ⟨rfl, rfl, hio.2⟩

theorem swd_read_dp_raw_sim (s s' : LowState) (reg : Nat) (h : LowSim s s') :
    (swd_read_dp_raw traceOra s' reg).1 = (swd_read_dp_raw traceOra s reg).1 ∧
    (swd_read_dp_raw traceOra s' reg).2.1 =
      (swd_read_dp_raw traceOra s reg).2.1 ∧
    LowSim (swd_read_dp_raw traceOra s reg).2.2
      (swd_read_dp_raw traceOra s' reg).2.2 := by
  unfold swd_read_dp_raw
  rw [h.2.2.2.2.2.2.2.1]
  exact swd_retry_sim 0 false s.retry_count s s' h

theorem swd_read_ap_raw_sim (s s' : LowState) (reg : Nat) (h : LowSim s s') :
    (swd_read_ap_raw traceOra s' reg).1 = (swd_read_ap_raw traceOra s reg).1 ∧
    (swd_read_ap_raw traceOra s' reg).2.1 =
      (swd_read_ap_raw traceOra s reg).2.1 ∧
    LowSim (swd_read_ap_raw traceOra s reg).2.2
      (swd_read_ap_raw traceOra s' reg).2.2 := by
  unfold swd_read_ap_raw
  rw [h.2.2.2.2.2.2.2.1]
  exact swd_retry_sim 0 false s.retry_count s s' h

theorem swd_write_ap_raw_sim (s s' : LowState) (reg value : Nat)
    (h : LowSim s s') :
    (swd_write_ap_raw traceOra s' reg value).1 =
      (swd_write_ap_raw traceOra s reg value).1 ∧
    LowSim (swd_write_ap_raw traceOra s reg value).2
      (swd_write_ap_raw traceOra s' reg value).2 := by
  unfold swd_write_ap_raw
  rw [h.2.2.2.2.2.2.2.1]
  have hr := swd_retry_sim value true s.retry_count s s' h
  rcases h1 : swd_retry traceOra value true s.retry_count s with ⟨e, v, s1⟩
  rcases h2 : swd_retry traceOra value true s.retry_count s' with ⟨e', v', s1'⟩
  rw [h1, h2] at hr
  dsimp only at hr ⊢
  exact ⟨hr.1, hr.2.2⟩

theorem swd_write_dp_raw_sim (s s' : LowState) (reg value : Nat)
    (h : LowSim s s') :
    (swd_write_dp_raw traceOra s' reg value).1 =
      (swd_write_dp_raw traceOra s reg value).1 ∧
    LowSim (swd_write_dp_raw traceOra s reg value).2
      (swd_write_dp_raw traceOra s' reg value).2 := by
  unfold swd_write_dp_raw
  rw [h.2.2.2.2.2.2.2.1]
  have hr := swd_retry_sim value true s.retry_count s s' h
  rcases h1 : swd_retry traceOra value true s.retry_count s with ⟨e, v, s1⟩
  rcases h2 : swd_retry traceOra value true s.retry_count s' with ⟨e', v', s1'⟩
  rw [h1, h2] at hr
  dsimp only at hr ⊢
  rw [hr.1]
  obtain ⟨hc, hp, ha, hb, hct, hsc, hpw, hrc, hla, hls, hix⟩ := hr.2.2
  split_ifs
  · exact ⟨rfl, hc, hp, ha, hb, hct, hsc, hpw, hrc, hla, rfl, hix⟩
  · exact ⟨rfl, hc, hp, ha, hb, hct, hsc, hpw, hrc, hla, hls, hix⟩

theorem select_ap_bank_sim (s s' : LowState) (apsel bank : Nat)
    (h : LowSim s s') :
    (select_ap_bank traceOra s' apsel bank).1 =
      (select_ap_bank traceOra s apsel bank).1 ∧
    LowSim (select_ap_bank traceOra s apsel bank).2
      (select_ap_bank traceOra s' apsel bank).2 := by
  obtain ⟨hc, hp, ha, hb, hct, hsc, hpw, hrc, hla, hls, hix⟩ := h
  have hw := swd_write_dp_raw_sim s s' DP_SELECT
    (make_dp_select_rp2350 apsel bank true)
    ⟨hc, hp, ha, hb, hct, hsc, hpw, hrc, hla, hls, hix⟩
  obtain ⟨hc1, hp1, ha1, hb1, hct1, hsc1, hpw1, hrc1, hla1, hls1, hix1⟩ :=
    hw.2
  unfold select_ap_bank
  dsimp only
  rw [ha, hb, hct, hw.1]
  split_ifs
  · exact ⟨rfl, hc, hp, ha, hb, hct, hsc, hpw, hrc, hla, hls, hix⟩
  · exact ⟨rfl, hc1, hp1, ha1, hb1, hct1, hsc1, hpw1, hrc1, hla1, hls1, hix1⟩
  · exact ⟨rfl, hc1, hp1, rfl, rfl, rfl, rfl, hpw1, hrc1, hla1, hls1, hix1⟩

theorem dap_read_dp_sim (s s' : LowState) (reg : Nat) (h : LowSim s s') :
    (dap_read_dp traceOra s' reg).1 = (dap_read_dp traceOra s reg).1 ∧
    LowSim (dap_read_dp traceOra s reg).2 (dap_read_dp traceOra s' reg).2 := by
  unfold dap_read_dp
  have hr := swd_read_dp_raw_sim s s' reg h
  rcases h1 : swd_read_dp_raw traceOra s reg with ⟨e, v, s1⟩
  rcases h2 : swd_read_dp_raw traceOra s' reg with ⟨e', v', s1'⟩
  rw [h1, h2] at hr
  dsimp only at hr ⊢
  rw [hr.1, hr.2.1]
  exact ⟨rfl, hr.2.2⟩

theorem dap_write_ap_sim (s s' : LowState) (apsel reg value : Nat)
    (h : LowSim s s') :
    (dap_write_ap traceOra s' apsel reg value).1 =
      (dap_write_ap traceOra s apsel reg value).1 ∧
    LowSim (dap_write_ap traceOra s apsel reg value).2
      (dap_write_ap traceOra s' apsel reg value).2 := by
  have hs := select_ap_bank_sim s s' apsel ((reg >>> 4) &&& 0xF) h
  unfold dap_write_ap
  rw [h.1]
  dsimp only
  rcases h1 : select_ap_bank traceOra s apsel ((reg >>> 4) &&& 0xF)
    with ⟨e, s1⟩
  rcases h2 : select_ap_bank traceOra s' apsel ((reg >>> 4) &&& 0xF)
    with ⟨e', s1'⟩
  try rw [h1]
  try rw [h2]
  rw [h1, h2] at hs
  dsimp only at hs ⊢
  rw [hs.1]
  split_ifs
  · exact ⟨rfl, h⟩
  · exact ⟨rfl, hs.2⟩
  · exact swd_write_ap_raw_sim s1 s1' reg value hs.2

theorem dap_read_mem32_eta (ora : WireOracle) (s : LowState) (addr : Nat) :
    dap_read_mem32 ora s addr =
      if s.connected = false then ({ error := .notConnected, value := 0 }, s)
      else if addr &&& 0x3 ≠ 0 then ({ error := .alignment, value := 0 }, s)
      else
        if (dap_write_ap ora
              { s with dmtrace := s.dmtrace ++ [DmAccess.rd addr] }
              AP_RISCV AP_TAR addr).1 ≠ .ok then
          ({ error := (dap_write_ap ora
              { s with dmtrace := s.dmtrace ++ [DmAccess.rd addr] }
              AP_RISCV AP_TAR addr).1, value := 0 },
            (dap_write_ap ora
              { s with dmtrace := s.dmtrace ++ [DmAccess.rd addr] }
              AP_RISCV AP_TAR addr).2)
        else
          if (swd_read_ap_raw ora (dap_write_ap ora
                { s with dmtrace := s.dmtrace ++ [DmAccess.rd addr] }
                AP_RISCV AP_TAR addr).2 AP_DRW).1 ≠ .ok then
            ({ error := (swd_read_ap_raw ora (dap_write_ap ora
                { s with dmtrace := s.dmtrace ++ [DmAccess.rd addr] }
                AP_RISCV AP_TAR addr).2 AP_DRW).1,
               value := (swd_read_ap_raw ora (dap_write_ap ora
                { s with dmtrace := s.dmtrace ++ [DmAccess.rd addr] }
                AP_RISCV AP_TAR addr).2 AP_DRW).2.1 },
              (swd_read_ap_raw ora (dap_write_ap ora
                { s with dmtrace := s.dmtrace ++ [DmAccess.rd addr] }
                AP_RISCV AP_TAR addr).2 AP_DRW).2.2)
          else
            if (swd_read_dp_raw ora (swd_read_ap_raw ora (dap_write_ap ora
                  { s with dmtrace := s.dmtrace ++ [DmAccess.rd addr] }
                  AP_RISCV AP_TAR addr).2 AP_DRW).2.2 DP_RDBUFF).1 = .ok then
              ({ error := (swd_read_dp_raw ora (swd_read_ap_raw ora
                  (dap_write_ap ora
                    { s with dmtrace := s.dmtrace ++ [DmAccess.rd addr] }
                    AP_RISCV AP_TAR addr).2 AP_DRW).2.2 DP_RDBUFF).1,
                 value := (swd_read_dp_raw ora (swd_read_ap_raw ora
                  (dap_write_ap ora
                    { s with dmtrace := s.dmtrace ++ [DmAccess.rd addr] }
                    AP_RISCV AP_TAR addr).2 AP_DRW).2.2 DP_RDBUFF).2.1 },
                (swd_read_dp_raw ora (swd_read_ap_raw ora (dap_write_ap ora
                    { s with dmtrace := s.dmtrace ++ [DmAccess.rd addr] }
                    AP_RISCV AP_TAR addr).2 AP_DRW).2.2 DP_RDBUFF).2.2)
            else
              ({ error := (swd_read_dp_raw ora (swd_read_ap_raw ora
                  (dap_write_ap ora
                    { s with dmtrace := s.dmtrace ++ [DmAccess.rd addr] }
                    AP_RISCV AP_TAR addr).2 AP_DRW).2.2 DP_RDBUFF).1,
                 value := (swd_read_ap_raw ora (dap_write_ap ora
                  { s with dmtrace := s.dmtrace ++ [DmAccess.rd addr] }
                  AP_RISCV AP_TAR addr).2 AP_DRW).2.1 },
                (swd_read_dp_raw ora (swd_read_ap_raw ora (dap_write_ap ora
                    { s with dmtrace := s.dmtrace ++ [DmAccess.rd addr] }
                    AP_RISCV AP_TAR addr).2 AP_DRW).2.2 DP_RDBUFF).2.2) := rfl

theorem dap_write_mem32_eta (ora : WireOracle) (s : LowState)
    (addr value : Nat) :
    dap_write_mem32 ora s addr value =
      if s.connected = false then (.notConnected, s)
      else if addr &&& 0x3 ≠ 0 then (.alignment, s)
      else
        if (dap_write_ap ora
              { s with dmtrace := s.dmtrace ++ [DmAccess.wr addr value] }
              AP_RISCV AP_TAR addr).1 ≠ .ok then
          dap_write_ap ora
            { s with dmtrace := s.dmtrace ++ [DmAccess.wr addr value] }
            AP_RISCV AP_TAR addr
        else
          if (dap_write_ap ora (dap_write_ap ora
                { s with dmtrace := s.dmtrace ++ [DmAccess.wr addr value] }
                AP_RISCV AP_TAR addr).2 AP_RISCV AP_DRW value).1 ≠ .ok then
            dap_write_ap ora (dap_write_ap ora
              { s with dmtrace := s.dmtrace ++ [DmAccess.wr addr value] }
              AP_RISCV AP_TAR addr).2 AP_RISCV AP_DRW value
          else
            if (dap_read_dp ora (dap_write_ap ora (dap_write_ap ora
                  { s with dmtrace := s.dmtrace ++ [DmAccess.wr addr value] }
                  AP_RISCV AP_TAR addr).2 AP_RISCV AP_DRW value).2
                  DP_RDBUFF).1.error ≠ .ok then
              ((dap_read_dp ora (dap_write_ap ora (dap_write_ap ora
                  { s with dmtrace := s.dmtrace ++ [DmAccess.wr addr value] }
                  AP_RISCV AP_TAR addr).2 AP_RISCV AP_DRW value).2
                  DP_RDBUFF).1.error,
                (dap_read_dp ora (dap_write_ap ora (dap_write_ap ora
                  { s with dmtrace := s.dmtrace ++ [DmAccess.wr addr value] }
                  AP_RISCV AP_TAR addr).2 AP_RISCV AP_DRW value).2
                  DP_RDBUFF).2)
            else
              (.ok,
                (dap_read_dp ora (dap_write_ap ora (dap_write_ap ora
                  { s with dmtrace := s.dmtrace ++ [DmAccess.wr addr value] }
                  AP_RISCV AP_TAR addr).2 AP_RISCV AP_DRW value).2
                  DP_RDBUFF).2) := rfl

theorem dap_read_mem32_sim (s s' : LowState) (addr : Nat) (h : LowSim s s') :
    (dap_read_mem32 traceOra s' addr).1 = (dap_read_mem32 traceOra s addr).1 ∧
    LowSim (dap_read_mem32 traceOra s addr).2
      (dap_read_mem32 traceOra s' addr).2 := by
  obtain ⟨hc, hp, ha, hb, hct, hsc, hpw, hrc, hla, hls, hix⟩ := h
  have h0 : LowSim { s with dmtrace := s.dmtrace ++ [DmAccess.rd addr] }
      { s' with dmtrace := s'.dmtrace ++ [DmAccess.rd addr] } :=
    ⟨hc, hp, ha, hb, hct, hsc, hpw, hrc, hla, hls, hix⟩
  have hw := dap_write_ap_sim
    { s with dmtrace := s.dmtrace ++ [DmAccess.rd addr] }
    { s' with dmtrace := s'.dmtrace ++ [DmAccess.rd addr] }
    AP_RISCV AP_TAR addr h0
  have hr2 := swd_read_ap_raw_sim
    (dap_write_ap traceOra
      { s with dmtrace := s.dmtrace ++ [DmAccess.rd addr] }
      AP_RISCV AP_TAR addr).2
    (dap_write_ap traceOra
      { s' with dmtrace := s'.dmtrace ++ [DmAccess.rd addr] }
      AP_RISCV AP_TAR addr).2 AP_DRW hw.2
  have hr3 := swd_read_dp_raw_sim
    (swd_read_ap_raw traceOra (dap_write_ap traceOra
      { s with dmtrace := s.dmtrace ++ [DmAccess.rd addr] }
      AP_RISCV AP_TAR addr).2 AP_DRW).2.2
    (swd_read_ap_raw traceOra (dap_write_ap traceOra
      { s' with dmtrace := s'.dmtrace ++ [DmAccess.rd addr] }
      AP_RISCV AP_TAR addr).2 AP_DRW).2.2 DP_RDBUFF hr2.2.2
  rw [dap_read_mem32_eta traceOra s addr, dap_read_mem32_eta traceOra s' addr,
    hw.1, hr2.1, hr2.2.1, hr3.1, hr3.2.1]
  by_cases hcn : s.connected = false
  · rw [if_pos hcn, if_pos (by rw [hc]; exact hcn)]
    exact ⟨rfl, hc, hp, ha, hb, hct, hsc, hpw, hrc, hla, hls, hix⟩
  · rw [if_neg hcn, if_neg (by rw [hc]; exact hcn)]
    split_ifs
    · exact ⟨rfl, hc, hp, ha, hb, hct, hsc, hpw, hrc, hla, hls, hix⟩
    · exact ⟨rfl, hw.2⟩
    · exact ⟨rfl, hr2.2.2⟩
    · exact ⟨rfl, hr3.2.2⟩
    · exact ⟨rfl, hr3.2.2⟩

theorem dap_write_mem32_sim (s s' : LowState) (addr value : Nat)
    (h : LowSim s s') :
    (dap_write_mem32 traceOra s' addr value).1 =
      (dap_write_mem32 traceOra s addr value).1 ∧
    LowSim (dap_write_mem32 traceOra s addr value).2
      (dap_write_mem32 traceOra s' addr value).2 := by
  obtain ⟨hc, hp, ha, hb, hct, hsc, hpw, hrc, hla, hls, hix⟩ := h
  have h0 : LowSim
      { s with dmtrace := s.dmtrace ++ [DmAccess.wr addr value] }
      { s' with dmtrace := s'.dmtrace ++ [DmAccess.wr addr value] } :=
    ⟨hc, hp, ha, hb, hct, hsc, hpw, hrc, hla, hls, hix⟩
  have hw := dap_write_ap_sim
    { s with dmtrace := s.dmtrace ++ [DmAccess.wr addr value] }
    { s' with dmtrace := s'.dmtrace ++ [DmAccess.wr addr value] }
    AP_RISCV AP_TAR addr h0
  have hw2 := dap_write_ap_sim
    (dap_write_ap traceOra
      { s with dmtrace := s.dmtrace ++ [DmAccess.wr addr value] }
      AP_RISCV AP_TAR addr).2
    (dap_write_ap traceOra
      { s' with dmtrace := s'.dmtrace ++ [DmAccess.wr addr value] }
      AP_RISCV AP_TAR addr).2 AP_RISCV AP_DRW value hw.2
  have hr3 := dap_read_dp_sim
    (dap_write_ap traceOra (dap_write_ap traceOra
      { s with dmtrace := s.dmtrace ++ [DmAccess.wr addr value] }
      AP_RISCV AP_TAR addr).2 AP_RISCV AP_DRW value).2
    (dap_write_ap traceOra (dap_write_ap traceOra
      { s' with dmtrace := s'.dmtrace ++ [DmAccess.wr addr value] }
      AP_RISCV AP_TAR addr).2 AP_RISCV AP_DRW value).2 DP_RDBUFF hw2.2
  rw [dap_write_mem32_eta traceOra s addr value,
    dap_write_mem32_eta traceOra s' addr value,
    hw.1, hw2.1, hr3.1]
  by_cases hcn : s.connected = false
  · rw [if_pos hcn, if_pos (by rw [hc]; exact hcn)]
    exact ⟨rfl, hc, hp, ha, hb, hct, hsc, hpw, hrc, hla, hls, hix⟩
  · rw [if_neg hcn, if_neg (by rw [hc]; exact hcn)]
    split_ifs
    · exact ⟨rfl, hc, hp, ha, hb, hct, hsc, hpw, hrc, hla, hls, hix⟩
    · exact ⟨hw.1, hw.2⟩
    · exact ⟨hw2.1, hw2.2⟩
    · exact ⟨rfl, hr3.2⟩
    · exact ⟨rfl, hr3.2⟩

theorem dm_read32_sim (t t' : Target) (addr : Nat) (h : TargetSim t t') :
    (dm_read32 traceOra t' addr).1 = (dm_read32 traceOra t addr).1 ∧
    TargetSim (dm_read32 traceOra t addr).2 (dm_read32 traceOra t' addr).2 := by
  have hl := dap_read_mem32_sim t.low t'.low addr h.1
  exact ⟨hl.1, hl.2, h.2⟩

theorem dm_write32_sim (t t' : Target) (addr value : Nat) (h : TargetSim t t') :
    (dm_write32 traceOra t' addr value).1 =
      (dm_write32 traceOra t addr value).1 ∧
    TargetSim (dm_write32 traceOra t addr value).2
      (dm_write32 traceOra t' addr value).2 := by
  have hl := dap_write_mem32_sim t.low t'.low addr value h.1
  exact ⟨hl.1, hl.2, h.2⟩

theorem wait_abstract_loop_sim :
    ∀ (n : Nat) (t t' : Target), TargetSim t t' →
      (wait_abstract_loop traceOra n t').1 =
        (wait_abstract_loop traceOra n t).1 ∧
      TargetSim (wait_abstract_loop traceOra n t).2
        (wait_abstract_loop traceOra n t').2 := by
  intro n
  induction n with
  | zero => exact fun t t' h => ⟨rfl, h⟩
  | succ m ih =>
    intro t t' h
    have hr := dm_read32_sim t t' DM_ABSTRACTCS h
    unfold wait_abstract_loop
    rcases h1 : dm_read32 traceOra t DM_ABSTRACTCS with ⟨res, t1⟩
    rcases h2 : dm_read32 traceOra t' DM_ABSTRACTCS with ⟨res', t1'⟩
    try rw [h1]
    try rw [h2]
    rw [h1, h2] at hr
    dsimp only at hr ⊢
    rw [hr.1]
    split_ifs
    · exact ⟨rfl, hr.2⟩
    · have hw := dm_write32_sim t1 t1' DM_ABSTRACTCS 0x00000700 hr.2
      rcases h3 : dm_write32 traceOra t1 DM_ABSTRACTCS 0x00000700
        with ⟨e2, t2⟩
      rcases h4 : dm_write32 traceOra t1' DM_ABSTRACTCS 0x00000700
        with ⟨e2', t2'⟩
      try rw [h3]
      try rw [h4]
      rw [h3, h4] at hw
      dsimp only at hw ⊢
      exact ⟨rfl, hw.2⟩
    · exact ⟨rfl, hr.2⟩
    · exact ih t1 t1' hr.2

theorem wait_abstract_command_sim (t t' : Target) (h : TargetSim t t') :
    (wait_abstract_command traceOra t').1 =
      (wait_abstract_command traceOra t).1 ∧
    TargetSim (wait_abstract_command traceOra t).2
      (wait_abstract_command traceOra t').2 :=
  wait_abstract_loop_sim 100 t t' h

theorem poll_dmstatus_loop_sim (hart_id : Nat) (wfh : Bool) :
    ∀ (n : Nat) (t t' : Target), TargetSim t t' →
      (poll_dmstatus_loop traceOra hart_id wfh n t').1 =
        (poll_dmstatus_loop traceOra hart_id wfh n t).1 ∧
      TargetSim (poll_dmstatus_loop traceOra hart_id wfh n t).2
        (poll_dmstatus_loop traceOra hart_id wfh n t').2 := by
  intro n
  induction n with
  | zero => exact fun t t' h => ⟨rfl, h⟩
  | succ m ih =>
    intro t t' h
    have hr := dm_read32_sim t t' DM_DMSTATUS h
    unfold poll_dmstatus_loop
    rcases h1 : dm_read32 traceOra t DM_DMSTATUS with ⟨res, t1⟩
    rcases h2 : dm_read32 traceOra t' DM_DMSTATUS with ⟨res', t1'⟩
    try rw [h1]
    try rw [h2]
    rw [h1, h2] at hr
    dsimp only at hr ⊢
    rw [hr.1]
    split_ifs
    · exact ⟨rfl, hr.2⟩
    · refine ⟨rfl, ?_, ?_⟩
      · rw [Target.setHart_low, Target.setHart_low]
        exact hr.2.1
      · unfold Target.setHart Target.hart
        dsimp only
        rw [hr.2.2]
    · refine ⟨rfl, ?_, ?_⟩
      · rw [Target.setHart_low, Target.setHart_low]
        exact hr.2.1
      · unfold Target.setHart Target.hart
        dsimp only
        rw [hr.2.2]
    · exact ih t1 t1' hr.2

theorem poll_dmstatus_halted_sim (t t' : Target) (hart_id : Nat) (wfh : Bool)
    (h : TargetSim t t') :
    (poll_dmstatus_halted traceOra t' hart_id wfh).1 =
      (poll_dmstatus_halted traceOra t hart_id wfh).1 ∧
    TargetSim (poll_dmstatus_halted traceOra t hart_id wfh).2
      (poll_dmstatus_halted traceOra t' hart_id wfh).2 :=
  poll_dmstatus_loop_sim hart_id wfh 10 t t' h

theorem write_progbuf_list_sim :
    ∀ (ws : List Nat) (i : Nat) (t t' : Target), TargetSim t t' →
      (write_progbuf_list traceOra ws i t').1 =
        (write_progbuf_list traceOra ws i t).1 ∧
      TargetSim (write_progbuf_list traceOra ws i t).2
        (write_progbuf_list traceOra ws i t').2 := by
  intro ws
  induction ws with
  | nil => exact fun i t t' h => ⟨rfl, h⟩
  | cons w rest ih =>
    intro i t t' h
    have hw := dm_write32_sim t t' (DM_PROGBUF0 + i * 4) w h
    unfold write_progbuf_list
    rcases h1 : dm_write32 traceOra t (DM_PROGBUF0 + i * 4) w with ⟨e, t1⟩
    rcases h2 : dm_write32 traceOra t' (DM_PROGBUF0 + i * 4) w with ⟨e', t1'⟩
    try rw [h1]
    try rw [h2]
    rw [h1, h2] at hw
    dsimp only at hw ⊢
    rw [hw.1]
    split_ifs
    · exact ⟨rfl, hw.2⟩
    · exact ih (i + 1) t1 t1' hw.2

theorem execute_progbuf_simple_sim (t t' : Target) (hart_id : Nat)
    (instructions : Option (List Nat)) (count : Nat) (h : TargetSim t t') :
    (execute_progbuf_simple traceOra t' hart_id instructions count).1 =
      (execute_progbuf_simple traceOra t hart_id instructions count).1 ∧
    TargetSim (execute_progbuf_simple traceOra t hart_id instructions
        count).2
      (execute_progbuf_simple traceOra t' hart_id instructions count).2 := by
  rcases instructions with _ | insts
  · exact ⟨rfl, h⟩
  · have hw := dm_write32_sim t t' DM_DMCONTROL
      (make_dmcontrol hart_id false false false) h
    have hp := write_progbuf_list_sim
      ((List.range count).map fun i => insts.getD i 0) 0
      (dm_write32 traceOra t DM_DMCONTROL
        (make_dmcontrol hart_id false false false)).2
      (dm_write32 traceOra t' DM_DMCONTROL
        (make_dmcontrol hart_id false false false)).2 hw.2
    have hw3 := dm_write32_sim
      (write_progbuf_list traceOra
        ((List.range count).map fun i => insts.getD i 0) 0
        (dm_write32 traceOra t DM_DMCONTROL
          (make_dmcontrol hart_id false false false)).2).2
      (write_progbuf_list traceOra
        ((List.range count).map fun i => insts.getD i 0) 0
        (dm_write32 traceOra t' DM_DMCONTROL
          (make_dmcontrol hart_id false false false)).2).2
      DM_COMMAND (1 <<< 18) hp.2
    have hwc := wait_abstract_command_sim
      (dm_write32 traceOra (write_progbuf_list traceOra
        ((List.range count).map fun i => insts.getD i 0) 0
        (dm_write32 traceOra t DM_DMCONTROL
          (make_dmcontrol hart_id false false false)).2).2
        DM_COMMAND (1 <<< 18)).2
      (dm_write32 traceOra (write_progbuf_list traceOra
        ((List.range count).map fun i => insts.getD i 0) 0
        (dm_write32 traceOra t' DM_DMCONTROL
          (make_dmcontrol hart_id false false false)).2).2
        DM_COMMAND (1 <<< 18)).2 hw3.2
    unfold execute_progbuf_simple
    dsimp only
    rw [hw.1, hp.1, hw3.1]
    split_ifs
    · exact ⟨rfl, h⟩
    · exact ⟨rfl, hw.2⟩
    · exact ⟨rfl, hp.2⟩
    · exact ⟨rfl, hw3.2⟩
    · exact hwc

set_option maxHeartbeats 2000000 in
theorem rp2350_read_reg_sim (t t' : Target) (hart_id reg_num : Nat)
    (h : TargetSim t t') :
    (rp2350_read_reg traceOra t' hart_id reg_num).1 =
      (rp2350_read_reg traceOra t hart_id reg_num).1 ∧
    TargetSim (rp2350_read_reg traceOra t hart_id reg_num).2
      (rp2350_read_reg traceOra t' hart_id reg_num).2 := by
  have hh : t'.hart hart_id = t.hart hart_id := by
    unfold Target.hart
    rw [h.2]
  have hw := dm_write32_sim t t' DM_DMCONTROL
    (make_dmcontrol hart_id false false false) h
  have hw2 := dm_write32_sim
    (dm_write32 traceOra t DM_DMCONTROL
      (make_dmcontrol hart_id false false false)).2
    (dm_write32 traceOra t' DM_DMCONTROL
      (make_dmcontrol hart_id false false false)).2
    DM_COMMAND ((0x1000 + reg_num) ||| (1 <<< 17) ||| (2 <<< 20)) hw.2
  have hwc := wait_abstract_command_sim
    (dm_write32 traceOra (dm_write32 traceOra t DM_DMCONTROL
      (make_dmcontrol hart_id false false false)).2
      DM_COMMAND ((0x1000 + reg_num) ||| (1 <<< 17) ||| (2 <<< 20))).2
    (dm_write32 traceOra (dm_write32 traceOra t' DM_DMCONTROL
      (make_dmcontrol hart_id false false false)).2
      DM_COMMAND ((0x1000 + reg_num) ||| (1 <<< 17) ||| (2 <<< 20))).2 hw2.2
  have hr4 := dm_read32_sim
    (wait_abstract_command traceOra
      (dm_write32 traceOra (dm_write32 traceOra t DM_DMCONTROL
        (make_dmcontrol hart_id false false false)).2
        DM_COMMAND ((0x1000 + reg_num) ||| (1 <<< 17) ||| (2 <<< 20))).2).2
    (wait_abstract_command traceOra
      (dm_write32 traceOra (dm_write32 traceOra t' DM_DMCONTROL
        (make_dmcontrol hart_id false false false)).2
        DM_COMMAND ((0x1000 + reg_num) ||| (1 <<< 17) ||| (2 <<< 20))).2).2
    DM_DATA0 hwc.2
  have hh4 : (dm_read32 traceOra (wait_abstract_command traceOra
      (dm_write32 traceOra (dm_write32 traceOra t' DM_DMCONTROL
        (make_dmcontrol hart_id false false false)).2
        DM_COMMAND ((0x1000 + reg_num) ||| (1 <<< 17) |||
          (2 <<< 20))).2).2 DM_DATA0).2.hart hart_id =
      (dm_read32 traceOra (wait_abstract_command traceOra
      (dm_write32 traceOra (dm_write32 traceOra t DM_DMCONTROL
        (make_dmcontrol hart_id false false false)).2
        DM_COMMAND ((0x1000 + reg_num) ||| (1 <<< 17) |||
          (2 <<< 20))).2).2 DM_DATA0).2.hart hart_id := by
    unfold Target.hart
    rw [hr4.2.2]
  unfold rp2350_read_reg
  dsimp only
  rw [h.2, hh, hw.1, hw2.1, hwc.1, hr4.1, hr4.2.2, hh4]
  set W1 := dm_write32 traceOra t DM_DMCONTROL
    (make_dmcontrol hart_id false false false) with hsW1
  set V1 := dm_write32 traceOra t' DM_DMCONTROL
    (make_dmcontrol hart_id false false false) with hsV1
  set W2 := dm_write32 traceOra W1.2 DM_COMMAND
    ((0x1000 + reg_num) ||| (1 <<< 17) ||| (2 <<< 20)) with hsW2
  set V2 := dm_write32 traceOra V1.2 DM_COMMAND
    ((0x1000 + reg_num) ||| (1 <<< 17) ||| (2 <<< 20)) with hsV2
  set WC := wait_abstract_command traceOra W2.2 with hsWC
  set VC := wait_abstract_command traceOra V2.2 with hsVC
  set R4 := dm_read32 traceOra WC.2 DM_DATA0 with hsR4
  set S4 := dm_read32 traceOra VC.2 DM_DATA0 with hsS4
  split_ifs
  · exact ⟨rfl, h⟩
  · exact ⟨rfl, h⟩
  · exact ⟨rfl, h⟩
  · exact ⟨rfl, h⟩
  · exact ⟨rfl, h⟩
  · exact ⟨rfl, hw.2⟩
  · exact ⟨rfl, hw2.2⟩
  · exact ⟨rfl, hwc.2⟩
  · refine ⟨rfl, ?_, ?_⟩
    · rw [Target.setHart_low, Target.setHart_low]
      exact hr4.2.1
    · unfold Target.setHart
      dsimp only
      rw [hr4.2.2]
  · exact ⟨rfl, hr4.2⟩

set_option maxHeartbeats 2000000 in
theorem rp2350_write_reg_sim (t t' : Target) (hart_id reg_num value : Nat)
    (h : TargetSim t t') :
    (rp2350_write_reg traceOra t' hart_id reg_num value).1 =
      (rp2350_write_reg traceOra t hart_id reg_num value).1 ∧
    TargetSim (rp2350_write_reg traceOra t hart_id reg_num value).2
      (rp2350_write_reg traceOra t' hart_id reg_num value).2 := by
  have hh : t'.hart hart_id = t.hart hart_id := by
    unfold Target.hart
    rw [h.2]
  have hw := dm_write32_sim t t' DM_DMCONTROL
    (make_dmcontrol hart_id false false false) h
  have hw2 := dm_write32_sim
    (dm_write32 traceOra t DM_DMCONTROL
      (make_dmcontrol hart_id false false false)).2
    (dm_write32 traceOra t' DM_DMCONTROL
      (make_dmcontrol hart_id false false false)).2 DM_DATA0 value hw.2
  have hw3 := dm_write32_sim
    (dm_write32 traceOra (dm_write32 traceOra t DM_DMCONTROL
      (make_dmcontrol hart_id false false false)).2 DM_DATA0 value).2
    (dm_write32 traceOra (dm_write32 traceOra t' DM_DMCONTROL
      (make_dmcontrol hart_id false false false)).2 DM_DATA0 value).2
    DM_COMMAND ((0x1000 + reg_num) ||| (1 <<< 16) ||| (1 <<< 17) |||
      (2 <<< 20)) hw2.2
  have hwc := wait_abstract_command_sim
    (dm_write32 traceOra (dm_write32 traceOra (dm_write32 traceOra t
      DM_DMCONTROL (make_dmcontrol hart_id false false false)).2
      DM_DATA0 value).2
      DM_COMMAND ((0x1000 + reg_num) ||| (1 <<< 16) ||| (1 <<< 17) |||
        (2 <<< 20))).2
    (dm_write32 traceOra (dm_write32 traceOra (dm_write32 traceOra t'
      DM_DMCONTROL (make_dmcontrol hart_id false false false)).2
      DM_DATA0 value).2
      DM_COMMAND ((0x1000 + reg_num) ||| (1 <<< 16) ||| (1 <<< 17) |||
        (2 <<< 20))).2 hw3.2
  have hh4 : (wait_abstract_command traceOra (dm_write32 traceOra
      (dm_write32 traceOra (dm_write32 traceOra t' DM_DMCONTROL
        (make_dmcontrol hart_id false false false)).2 DM_DATA0 value).2
      DM_COMMAND ((0x1000 + reg_num) ||| (1 <<< 16) ||| (1 <<< 17) |||
        (2 <<< 20))).2).2.hart hart_id =
      (wait_abstract_command traceOra (dm_write32 traceOra
      (dm_write32 traceOra (dm_write32 traceOra t DM_DMCONTROL
        (make_dmcontrol hart_id false false false)).2 DM_DATA0 value).2
      DM_COMMAND ((0x1000 + reg_num) ||| (1 <<< 16) ||| (1 <<< 17) |||
        (2 <<< 20))).2).2.hart hart_id := by
    unfold Target.hart
    rw [hwc.2.2]
  unfold rp2350_write_reg
  dsimp only
  rw [h.2, hh, hw.1, hw2.1, hw3.1, hwc.1, hwc.2.2, hh4]
  set W1 := dm_write32 traceOra t DM_DMCONTROL
    (make_dmcontrol hart_id false false false) with hsW1
  set V1 := dm_write32 traceOra t' DM_DMCONTROL
    (make_dmcontrol hart_id false false false) with hsV1
  set W2 := dm_write32 traceOra W1.2 DM_DATA0 value with hsW2
  set V2 := dm_write32 traceOra V1.2 DM_DATA0 value with hsV2
  set W3 := dm_write32 traceOra W2.2 DM_COMMAND
    ((0x1000 + reg_num) ||| (1 <<< 16) ||| (1 <<< 17) ||| (2 <<< 20))
    with hsW3
  set V3 := dm_write32 traceOra V2.2 DM_COMMAND
    ((0x1000 + reg_num) ||| (1 <<< 16) ||| (1 <<< 17) ||| (2 <<< 20))
    with hsV3
  set WC := wait_abstract_command traceOra W3.2 with hsWC
  set VC := wait_abstract_command traceOra V3.2 with hsVC
  split_ifs
  · exact ⟨rfl, h⟩
  · exact ⟨rfl, h⟩
  · exact ⟨rfl, h⟩
  · exact ⟨rfl, h⟩
  · exact ⟨rfl, hw.2⟩
  · exact ⟨rfl, hw2.2⟩
  · exact ⟨rfl, hw3.2⟩
  · refine ⟨rfl, ?_, ?_⟩
    · rw [Target.setHart_low, Target.setHart_low]
      exact hwc.2.1
    · unfold Target.setHart
      dsimp only
      rw [hwc.2.2]
  · exact ⟨rfl, hwc.2⟩

set_option maxHeartbeats 2000000 in
theorem rp2350_read_csr_sim (t t' : Target) (hart_id csr_addr : Nat)
    (h : TargetSim t t') :
    (rp2350_read_csr traceOra t' hart_id csr_addr).1 =
      (rp2350_read_csr traceOra t hart_id csr_addr).1 ∧
    TargetSim (rp2350_read_csr traceOra t hart_id csr_addr).2
      (rp2350_read_csr traceOra t' hart_id csr_addr).2 := by
  have hh : t'.hart hart_id = t.hart hart_id := by
    unfold Target.hart
    rw [h.2]
  have hr1 := rp2350_read_reg_sim t t' hart_id 8 h
  have he := execute_progbuf_simple_sim
    (rp2350_read_reg traceOra t hart_id 8).2
    (rp2350_read_reg traceOra t' hart_id 8).2 hart_id
    (some [0x00002473 ||| (csr_addr <<< 20), 0x00100073]) 2 hr1.2
  have hwA := rp2350_write_reg_sim
    (execute_progbuf_simple traceOra (rp2350_read_reg traceOra t
      hart_id 8).2 hart_id
      (some [0x00002473 ||| (csr_addr <<< 20), 0x00100073]) 2).2
    (execute_progbuf_simple traceOra (rp2350_read_reg traceOra t'
      hart_id 8).2 hart_id
      (some [0x00002473 ||| (csr_addr <<< 20), 0x00100073]) 2).2
    hart_id 8 (rp2350_read_reg traceOra t hart_id 8).1.value he.2
  have hr4 := rp2350_read_reg_sim
    (execute_progbuf_simple traceOra (rp2350_read_reg traceOra t
      hart_id 8).2 hart_id
      (some [0x00002473 ||| (csr_addr <<< 20), 0x00100073]) 2).2
    (execute_progbuf_simple traceOra (rp2350_read_reg traceOra t'
      hart_id 8).2 hart_id
      (some [0x00002473 ||| (csr_addr <<< 20), 0x00100073]) 2).2
    hart_id 8 he.2
  have hw5 := rp2350_write_reg_sim
    (rp2350_read_reg traceOra (execute_progbuf_simple traceOra
      (rp2350_read_reg traceOra t hart_id 8).2 hart_id
      (some [0x00002473 ||| (csr_addr <<< 20), 0x00100073]) 2).2
      hart_id 8).2
    (rp2350_read_reg traceOra (execute_progbuf_simple traceOra
      (rp2350_read_reg traceOra t' hart_id 8).2 hart_id
      (some [0x00002473 ||| (csr_addr <<< 20), 0x00100073]) 2).2
      hart_id 8).2
    hart_id 8 (rp2350_read_reg traceOra t hart_id 8).1.value hr4.2
  unfold rp2350_read_csr
  dsimp only
  rw [h.2, hh, hr1.1, he.1, hr4.1]
  set R1 := rp2350_read_reg traceOra t hart_id 8 with hsR1
  set S1 := rp2350_read_reg traceOra t' hart_id 8 with hsS1
  set E2 := execute_progbuf_simple traceOra R1.2 hart_id
    (some [0x00002473 ||| (csr_addr <<< 20), 0x00100073]) 2 with hsE2
  set F2 := execute_progbuf_simple traceOra S1.2 hart_id
    (some [0x00002473 ||| (csr_addr <<< 20), 0x00100073]) 2 with hsF2
  split_ifs
  · exact ⟨rfl, h⟩
  · exact ⟨rfl, h⟩
  · exact ⟨rfl, h⟩
  · exact ⟨rfl, hr1.2⟩
  · exact ⟨rfl, hwA.2⟩
  · exact ⟨rfl, hw5.2⟩

set_option maxHeartbeats 2000000 in
theorem rp2350_write_csr_sim (t t' : Target) (hart_id csr_addr value : Nat)
    (h : TargetSim t t') :
    (rp2350_write_csr traceOra t' hart_id csr_addr value).1 =
      (rp2350_write_csr traceOra t hart_id csr_addr value).1 ∧
    TargetSim (rp2350_write_csr traceOra t hart_id csr_addr value).2
      (rp2350_write_csr traceOra t' hart_id csr_addr value).2 := by
  have hh : t'.hart hart_id = t.hart hart_id := by
    unfold Target.hart
    rw [h.2]
  have hr1 := rp2350_read_reg_sim t t' hart_id 8 h
  have hw2 := rp2350_write_reg_sim
    (rp2350_read_reg traceOra t hart_id 8).2
    (rp2350_read_reg traceOra t' hart_id 8).2 hart_id 8 value hr1.2
  have hwA := rp2350_write_reg_sim
    (rp2350_write_reg traceOra (rp2350_read_reg traceOra t hart_id 8).2
      hart_id 8 value).2
    (rp2350_write_reg traceOra (rp2350_read_reg traceOra t' hart_id 8).2
      hart_id 8 value).2
    hart_id 8 (rp2350_read_reg traceOra t hart_id 8).1.value hw2.2
  have he := execute_progbuf_simple_sim
    (rp2350_write_reg traceOra (rp2350_read_reg traceOra t hart_id 8).2
      hart_id 8 value).2
    (rp2350_write_reg traceOra (rp2350_read_reg traceOra t' hart_id 8).2
      hart_id 8 value).2
    hart_id (some [0x00041073 ||| (csr_addr <<< 20), 0x00100073]) 2 hw2.2
  have hw4 := rp2350_write_reg_sim
    (execute_progbuf_simple traceOra (rp2350_write_reg traceOra
      (rp2350_read_reg traceOra t hart_id 8).2 hart_id 8 value).2 hart_id
      (some [0x00041073 ||| (csr_addr <<< 20), 0x00100073]) 2).2
    (execute_progbuf_simple traceOra (rp2350_write_reg traceOra
      (rp2350_read_reg traceOra t' hart_id 8).2 hart_id 8 value).2 hart_id
      (some [0x00041073 ||| (csr_addr <<< 20), 0x00100073]) 2).2
    hart_id 8 (rp2350_read_reg traceOra t hart_id 8).1.value he.2
  unfold rp2350_write_csr
  dsimp only
  rw [h.2, hh, hr1.1, hw2.1, he.1]
  set R1 := rp2350_read_reg traceOra t hart_id 8 with hsR1
  set S1 := rp2350_read_reg traceOra t' hart_id 8 with hsS1
  set W2 := rp2350_write_reg traceOra R1.2 hart_id 8 value with hsW2
  set V2 := rp2350_write_reg traceOra S1.2 hart_id 8 value with hsV2
  set E3 := execute_progbuf_simple traceOra W2.2 hart_id
    (some [0x00041073 ||| (csr_addr <<< 20), 0x00100073]) 2 with hsE3
  set F3 := execute_progbuf_simple traceOra V2.2 hart_id
    (some [0x00041073 ||| (csr_addr <<< 20), 0x00100073]) 2 with hsF3
  split_ifs
  · exact ⟨rfl, h⟩
  · exact ⟨rfl, h⟩
  · exact ⟨rfl, h⟩
  · exact ⟨rfl, hr1.2⟩
  · exact ⟨rfl, hwA.2⟩
  · exact ⟨rfl, hw4.2⟩

theorem targetSim_setHart_pause (t t' : Target) (i : Nat)
    (h : TargetSim t t') :
    TargetSim
      (t.setHart i
        { t.hart i with halted := false, halt_state_known := true })
      (t'.setHart i
        { t'.hart i with halted := false, halt_state_known := true }) := by
  refine ⟨?_, ?_⟩
  · rw [Target.setHart_low, Target.setHart_low]
    exact h.1
  · unfold Target.setHart Target.hart
    dsimp only
    rw [h.2]

theorem targetSim_setHart_rehalt (t t' : Target) (i : Nat)
    (h : TargetSim t t') :
    TargetSim
      (t.setHart i { t.hart i with halted := true, halt_state_known := true, cache_valid := false })
      (t'.setHart i { t'.hart i with halted := true, halt_state_known := true, cache_valid := false }) := by
  refine ⟨?_, ?_⟩
  · rw [Target.setHart_low, Target.setHart_low]
    exact h.1
  · unfold Target.setHart Target.hart
    dsimp only
    rw [h.2]

set_option maxHeartbeats 4000000 in
theorem rp2350_step_sim (t t' : Target) (hart_id : Nat)
    (h : TargetSim t t') :
    (rp2350_step traceOra t' hart_id).1 =
      (rp2350_step traceOra t hart_id).1 ∧
    TargetSim (rp2350_step traceOra t hart_id).2
      (rp2350_step traceOra t' hart_id).2 := by
  have hh : t'.hart hart_id = t.hart hart_id := by
    unfold Target.hart
    rw [h.2]
  have hd1 := rp2350_read_csr_sim t t' hart_id 0x7b0 h
  have hw2 := rp2350_write_csr_sim
    (rp2350_read_csr traceOra t hart_id 0x7b0).2
    (rp2350_read_csr traceOra t' hart_id 0x7b0).2 hart_id 0x7b0
    ((rp2350_read_csr traceOra t hart_id 0x7b0).1.value ||| (1 <<< 2)) hd1.2
  have hw3 := dm_write32_sim _ _
    DM_DMCONTROL (make_dmcontrol hart_id false false false) hw2.2
  have hw4 := dm_write32_sim _ _
    DM_DMCONTROL (make_dmcontrol hart_id false true false) hw3.2
  have h5 := targetSim_setHart_pause _ _ hart_id hw4.2
  have hp6 := poll_dmstatus_halted_sim _ _ hart_id true h5
  have h7 := targetSim_setHart_rehalt _ _ hart_id hp6.2
  have hw8 := rp2350_write_csr_sim _ _ hart_id 0x7b0
    (rp2350_read_csr traceOra t hart_id 0x7b0).1.value h7
  unfold rp2350_step read_dcsr write_dcsr
  dsimp only
  rw [h.2, hh, hd1.1, hw2.1, hw3.1, hw4.1, hp6.1]
  set D1 := rp2350_read_csr traceOra t hart_id 0x7b0 with hsD1
  set C1 := rp2350_read_csr traceOra t' hart_id 0x7b0 with hsC1
  set W2 := rp2350_write_csr traceOra D1.2 hart_id 0x7b0
    (D1.1.value ||| (1 <<< 2)) with hsW2
  set V2 := rp2350_write_csr traceOra C1.2 hart_id 0x7b0
    (D1.1.value ||| (1 <<< 2)) with hsV2
  set W3 := dm_write32 traceOra W2.2 DM_DMCONTROL
    (make_dmcontrol hart_id false false false) with hsW3
  set V3 := dm_write32 traceOra V2.2 DM_DMCONTROL
    (make_dmcontrol hart_id false false false) with hsV3
  set W4 := dm_write32 traceOra W3.2 DM_DMCONTROL
    (make_dmcontrol hart_id false true false) with hsW4
  set V4 := dm_write32 traceOra V3.2 DM_DMCONTROL
    (make_dmcontrol hart_id false true false) with hsV4
  set T5 := W4.2.setHart hart_id { W4.2.hart hart_id with halted := false, halt_state_known := true } with hsT5
  set U5 := V4.2.setHart hart_id { V4.2.hart hart_id with halted := false, halt_state_known := true } with hsU5
  set P6 := poll_dmstatus_halted traceOra T5 hart_id true with hsP6
  set Q6 := poll_dmstatus_halted traceOra U5 hart_id true with hsQ6
  split_ifs
  · exact ⟨rfl, h⟩
  · exact ⟨rfl, h⟩
  · exact ⟨rfl, h⟩
  · exact ⟨rfl, hd1.2⟩
  · exact ⟨rfl, hw2.2⟩
  · exact ⟨rfl, hw3.2⟩
  · exact ⟨rfl, hw4.2⟩
  · exact ⟨rfl, hp6.2⟩
  · exact ⟨hw8.1, hw8.2⟩

theorem rp2350_read_mem32_sim (t t' : Target) (addr : Nat)
    (h : TargetSim t t') :
    (rp2350_read_mem32 traceOra t' addr).1 =
      (rp2350_read_mem32 traceOra t addr).1 ∧
    TargetSim (rp2350_read_mem32 traceOra t addr).2
      (rp2350_read_mem32 traceOra t' addr).2 := by
  have hw := dm_write32_sim t t' DM_SBADDRESS0 addr h
  have hr2 := dm_read32_sim _ _ DM_SBDATA0 hw.2
  have hrf := dm_read32_sim t t' addr h
  unfold rp2350_read_mem32
  dsimp only
  rw [h.2, hw.1]
  split_ifs
  · exact ⟨rfl, h⟩
  · exact ⟨rfl, h⟩
  · exact ⟨rfl, hw.2⟩
  · exact ⟨hr2.1, hr2.2⟩
  · exact ⟨hrf.1, hrf.2⟩

theorem lowSim_trans {a b c : LowState} (h1 : LowSim a b)
    (h2 : LowSim b c) : LowSim a c := by
  obtain ⟨x1, x2, x3, x4, x5, x6, x7, x8, x9, x10, x11⟩ := h1
  obtain ⟨y1, y2, y3, y4, y5, y6, y7, y8, y9, y10, y11⟩ := h2
  exact ⟨y1.trans x1, y2.trans x2, y3.trans x3, y4.trans x4, y5.trans x5,
    y6.trans x6, y7.trans x7, y8.trans x8, y9.trans x9, y10.trans x10,
    y11.trans x11⟩

theorem targetSim_trans {a b c : Target} (h1 : TargetSim a b)
    (h2 : TargetSim b c) : TargetSim a c :=
  ⟨lowSim_trans h1.1 h2.1, h2.2.trans h1.2⟩

set_option maxHeartbeats 4000000 in
theorem trace_iter_sim (t t' : Target) (hart_id : Nat)
    (cb : TraceRecord → Bool) (h : TargetSim t t') (u : Target)
    (hu : trace_iter traceOra cb false hart_id t = .next u) :
    ∃ u', trace_iter traceOra cb false hart_id t' = .next u' ∧
      TargetSim u u' := by
  have hpc := rp2350_read_csr_sim t t' hart_id 0x7b1 h
  have hmem := rp2350_read_mem32_sim
    (rp2350_read_csr traceOra t hart_id 0x7b1).2
    (rp2350_read_csr traceOra t' hart_id 0x7b1).2
    (rp2350_read_csr traceOra t hart_id 0x7b1).1.value hpc.2
  have hstep := rp2350_step_sim
    (rp2350_read_mem32 traceOra (rp2350_read_csr traceOra t hart_id
      0x7b1).2 (rp2350_read_csr traceOra t hart_id 0x7b1).1.value).2
    (rp2350_read_mem32 traceOra (rp2350_read_csr traceOra t' hart_id
      0x7b1).2 (rp2350_read_csr traceOra t hart_id 0x7b1).1.value).2
    hart_id hmem.2
  unfold trace_iter rp2350_read_pc at hu ⊢
  dsimp only at hu ⊢
  simp only [Bool.false_eq_true, if_false] at hu ⊢
  rw [hpc.1, hmem.1, hstep.1]
  split_ifs at hu ⊢
  all_goals
    first
      | (injection hu with h1
         exact ⟨_, rfl, h1 ▸ hstep.2⟩)
      | cases hu

/-- Under `traceOra`, one loop-body run from `traceBase` succeeds: the PC
read yields 0, the instruction fetch and the single step all complete. -/
theorem traceBase_iter :
    trace_iter traceOra cbTrue false 0 traceBase = .next traceNext := rfl

set_option maxRecDepth 100000 in
/-- The iteration returns to the steady state: all non-ghost fields are
restored and the transaction counter advances by one full period. -/
theorem traceBase_iter_sim : TargetSim traceBase traceNext :=
  ⟨⟨rfl, rfl, rfl, rfl, rfl, rfl, rfl, rfl, rfl, rfl, rfl⟩, rfl⟩

theorem targetSim_refl (t : Target) : TargetSim t t :=
  ⟨⟨rfl, rfl, rfl, rfl, rfl, rfl, rfl, rfl, rfl, rfl, rfl⟩, rfl⟩

/-- With `max_instructions = 0` and the steady wire, the loop body
succeeds forever: no fuel bound makes the loop return. -/
theorem trace_loop_unbounded :
    ∀ (fuel : Nat) (t' : Target) (count : Nat), TargetSim traceBase t' →
      trace_loop traceOra cbTrue false 0 0 fuel t' count = none := by
  intro fuel
  induction fuel with
  | zero => intro t' count h; rfl
  | succ m ih =>
    intro t' count h
    obtain ⟨u', hu', hsim⟩ :=
      trace_iter_sim traceBase t' 0 cbTrue h traceNext traceBase_iter
    unfold trace_loop
    rw [if_pos (Or.inl rfl), hu']
    dsimp only
    exact ih u' (count + 1) (targetSim_trans traceBase_iter_sim hsim)

/-- C7: with `max_instructions = 0` the trace loop has no iteration bound —
under a wire that keeps every loop-body call succeeding, `rp2350_trace`
exhausts every fuel budget (the C `while` never exits); whenever the loop
does return, the value is the non-negative count of instructions traced
(at least the count already accumulated), except that a pre-failure with
nothing yet traced returns the negated error code; a `rp2350_step` failure
after `count++` is swallowed, returning the positive count, and a
pre-failure with `count > 0` likewise returns the count. -/
theorem C7_trace :
    (∀ (ora : WireOracle) (cb : TraceRecord → Bool) (cap : Bool)
        (hart_id max_instructions fuel : Nat) (t : Target) (count : Nat)
        (r : Int),
      trace_loop ora cb cap hart_id max_instructions fuel t count =
        some r →
      (∃ c : Nat, r = (c : Int) ∧ count ≤ c) ∨
      (count = 0 ∧ ∃ e : SwdError, e ≠ .ok ∧ r = -(e.code : Int))) ∧
    (∀ (ora : WireOracle) (cb : TraceRecord → Bool) (cap : Bool)
        (hart_id fuel count : Nat) (t t1 : Target) (e : SwdError),
      trace_iter ora cb cap hart_id t = .failStep e t1 →
      trace_loop ora cb cap hart_id 0 (fuel + 1) t count =
        some ((count + 1 : Nat) : Int)) ∧
    (∀ (ora : WireOracle) (cb : TraceRecord → Bool) (cap : Bool)
        (hart_id fuel count : Nat) (t t1 : Target) (e : SwdError),
      trace_iter ora cb cap hart_id t = .failPre e t1 →
      trace_loop ora cb cap hart_id 0 (fuel + 1) t count =
        some (if count > 0 then (count : Int) else -(e.code : Int))) ∧
    (∀ fuel : Nat,
      rp2350_trace traceOra fuel traceBase 0 0 cbTrue false = none) := by
  refine ⟨?_, ?_, ?_, ?_⟩
  · exact trace_loop_shape
  · intro ora cb cap hart_id fuel count t t1 e hit
    unfold trace_loop
    rw [if_pos (Or.inl rfl), hit]
    dsimp only
    rw [if_pos (by omega)]
  · intro ora cb cap hart_id fuel count t t1 e hit
    unfold trace_loop
    rw [if_pos (Or.inl rfl), hit]
  · intro fuel
    unfold rp2350_trace
    rw [if_neg (by simp [traceBase]), if_neg (by decide)]
    dsimp only
    rw [if_neg (by decide)]
    rw [if_neg (by decide)]
    exact trace_loop_unbounded fuel traceBase 0 (targetSim_refl traceBase)

theorem C7_trace_witness :
    rp2350_trace traceOra 3 traceBase 0 0 cbTrue false = none ∧
    ((∃ c : Nat, (1 : Int) = (c : Int) ∧ 1 ≤ c) ∨
      (1 = 0 ∧ ∃ e : SwdError, e ≠ .ok ∧ (1 : Int) = -(e.code : Int))) :=
  ⟨C7_trace.2.2.2 3,
    C7_trace.1 (ackOracle 1) cbTrue false 0 1 1 traceBase 1 1 rfl⟩
